import Mathlib

/-!
Shallow embedding of `src/holidays/countries/united_kingdom.py`
(class `UnitedKingdom` of the python-holidays repository).

Dates are represented by their proleptic-Gregorian rata-die number
(day 1 = January 1 of year 1), so that day-delta arithmetic on Python
`datetime.date` objects becomes `Nat` addition/subtraction.  Python's
`date.weekday()` convention (Monday = 0 … Sunday = 6) is kept: for rata
die `n` the weekday is `(n + 6) % 7` because rata die 1 is a Monday.

The holiday container (`self[date] = name`) is a Python dict keyed by
date; we model the sequence of assignments as a list of
`(rata-die, name)` pairs in program order, and dict lookup as the value
of the LAST assignment to a key (`lookup`).
-/

set_option linter.unnecessarySeqFocus false

namespace UKHolidays

/-- Gregorian leap-year test. -/
def isLeap (y : Nat) : Bool :=
  (y % 4 == 0 && y % 100 != 0) || y % 400 == 0

/-- Days in the months before month `m` (1-based) of year `y`. -/
def daysBeforeMonth (y m : Nat) : Nat :=
  (match m with
   | 1 => 0 | 2 => 31 | 3 => 59 | 4 => 90 | 5 => 120 | 6 => 151 | 7 => 181
   | 8 => 212 | 9 => 243 | 10 => 273 | 11 => 304 | _ => 334) +
  (if isLeap y = true ∧ 3 ≤ m then 1 else 0)

/-- Rata-die number of the Gregorian date `y-m-d` (day 1 = 0001-01-01). -/
def toRD (y m d : Nat) : Nat :=
  365 * (y - 1) + (y - 1) / 4 - (y - 1) / 100 + (y - 1) / 400
    + daysBeforeMonth y m + d

/-- Python `date.weekday()`: Monday = 0 … Sunday = 6. -/
def weekday (n : Nat) : Nat := (n + 6) % 7

/-- `d + relativedelta(weekday=W)` of dateutil: the first date with weekday
`w` that is on or after `d`. -/
def nextWeekdayOnOrAfter (w n : Nat) : Nat := n + (w + 7 - weekday n) % 7

/-- `d + relativedelta(weekday=W(-1))` of dateutil: the last date with
weekday `w` that is on or before `d`. -/
def prevWeekdayOnOrBefore (w n : Nat) : Nat := n - (weekday n + 7 - w) % 7

/-- Western (Gregorian) Easter Sunday of year `y` as `(month, day)`,
by the anonymous Gregorian computus; this models `dateutil.easter.easter`
(method `EASTER_WESTERN`), the external function the source imports. -/
def easterMD (y : Nat) : Nat × Nat :=
  let a := y % 19
  let b := y / 100
  let c := y % 100
  let d := b / 4
  let e := b % 4
  let f := (b + 8) / 25
  let g := (b - f + 1) / 3
  let h := (19 * a + b - d - g + 15) % 30
  let i := c / 4
  let k := c % 4
  let l := (32 + 2 * e + 2 * i - h - k) % 7
  let m := (a + 11 * h + 22 * l) / 451
  ((h + l + 114 - 7 * m) / 31, (h + l + 114 - 7 * m) % 31 + 1)

/-- Rata-die number of Easter Sunday in year `y`. -/
def easterRD (y : Nat) : Nat := toRD y (easterMD y).1 (easterMD y).2

/-- Name decoration of the "New Year Holiday" rule: the source appends
" [Scotland]" when the queried subdivision is the aggregate code "UK". -/
def nyhName (s : String) : String :=
  "New Year Holiday" ++ (if s = "UK" then " [Scotland]" else "")

/-- Name decoration of the "St. Patrick's Day" rule. -/
def stPatrickName (s : String) : String :=
  "St. Patrick's Day" ++ (if s = "UK" then " [Northern Ireland]" else "")

/-- Name decoration of the "Battle of the Boyne" rule. -/
def boyneName (s : String) : String :=
  "Battle of the Boyne" ++ (if s = "UK" then " [Northern Ireland]" else "")

/-- Name decoration of the "Summer Bank Holiday" rule. -/
def summerName (s : String) : String :=
  "Summer Bank Holiday" ++ (if s = "UK" then " [Scotland]" else "")

/-- Name decoration of the "St. Andrew's Day" rule. -/
def stAndrewName (s : String) : String :=
  "St. Andrew's Day" ++ (if s = "UK" then " [Scotland]" else "")

/-- Name decoration of the "Easter Monday" rule. -/
def easterMondayName (s : String) : String :=
  "Easter Monday" ++ (if s = "UK" then " [England/Wales/Northern Ireland]" else "")

/-- Name decoration of the "Late Summer Bank Holiday" rule. -/
def lateSummerName (s : String) : String :=
  "Late Summer Bank Holiday" ++ (if s = "UK" then " [England/Wales/Northern Ireland]" else "")

/-- The "New Year's Day" block of `UnitedKingdom._populate` (year gate 1974,
Sunday shifts the observed entry +1 day, Saturday +2 days). -/
def newYearsDay (y : Nat) (obs : Bool) : List (Nat × String) :=
  if 1974 ≤ y then
    [(toRD y 1 1, "New Year's Day")] ++
      (if obs = true ∧ weekday (toRD y 1 1) = 6 then
        [(toRD y 1 1 + 1, "New Year's Day (Observed)")]
      else if obs = true ∧ weekday (toRD y 1 1) = 5 then
        [(toRD y 1 1 + 2, "New Year's Day (Observed)")]
      else [])
  else []

/-- The "New Year Holiday" block of `UnitedKingdom._populate` (UK and
Scotland only; weekend shifts the observed entry +2 days, Monday +1 day). -/
def newYearHoliday (y : Nat) (s : String) (obs : Bool) : List (Nat × String) :=
  if s = "UK" ∨ s = "Scotland" then
    [(toRD y 1 2, nyhName s)] ++
      (if obs = true ∧ (weekday (toRD y 1 2) = 5 ∨ weekday (toRD y 1 2) = 6) then
        [(toRD y 1 2 + 2, nyhName s ++ " (Observed)")]
      else if obs = true ∧ weekday (toRD y 1 2) = 0 then
        [(toRD y 1 2 + 1, nyhName s ++ " (Observed)")]
      else [])
  else []

/-- The "St. Patrick's Day" block of `UnitedKingdom._populate` (UK and
Northern Ireland; weekend shifts the observed entry to the next Monday). -/
def stPatricksDay (y : Nat) (s : String) (obs : Bool) : List (Nat × String) :=
  if s = "UK" ∨ s = "Northern Ireland" then
    [(toRD y 3 17, stPatrickName s)] ++
      (if obs = true ∧ (weekday (toRD y 3 17) = 5 ∨ weekday (toRD y 3 17) = 6) then
        [(nextWeekdayOnOrAfter 0 (toRD y 3 17), stPatrickName s ++ " (Observed)")]
      else [])
  else []

/-- The "Battle of the Boyne" block of `UnitedKingdom._populate`
(UK and Northern Ireland; no observed shift). -/
def battleOfTheBoyne (y : Nat) (s : String) : List (Nat × String) :=
  if s = "UK" ∨ s = "Northern Ireland" then [(toRD y 7 12, boyneName s)] else []

/-- The "Summer bank holiday" block of `UnitedKingdom._populate`
(UK and Scotland; first Monday in August). -/
def summerBankHoliday (y : Nat) (s : String) : List (Nat × String) :=
  if s = "UK" ∨ s = "Scotland" then
    [(nextWeekdayOnOrAfter 0 (toRD y 8 1), summerName s)]
  else []

/-- The "St. Andrew's Day" block of `UnitedKingdom._populate`
(UK and Scotland; November 30). -/
def stAndrewsDay (y : Nat) (s : String) : List (Nat × String) :=
  if s = "UK" ∨ s = "Scotland" then [(toRD y 11 30, stAndrewName s)] else []

/-- The "Christmas Day" block of `UnitedKingdom._populate` (all
subdivisions; Saturday or Sunday both shift the observed entry to Dec 27). -/
def christmasDay (y : Nat) (obs : Bool) : List (Nat × String) :=
  [(toRD y 12 25, "Christmas Day")] ++
    (if obs = true ∧ weekday (toRD y 12 25) = 5 then
      [(toRD y 12 27, "Christmas Day (Observed)")]
    else if obs = true ∧ weekday (toRD y 12 25) = 6 then
      [(toRD y 12 27, "Christmas Day (Observed)")]
    else [])

/-- The "Good Friday" line of `UnitedKingdom._country_specific`:
`easter(year) + rd(weekday=FR(-1))`. -/
def goodFriday (y : Nat) : List (Nat × String) :=
  [(prevWeekdayOnOrBefore 4 (easterRD y), "Good Friday")]

/-- The "Easter Monday" block of `UnitedKingdom._country_specific`
(skipped for Scotland): `easter(year) + rd(weekday=MO)`. -/
def easterMonday (y : Nat) (s : String) : List (Nat × String) :=
  if s ≠ "Scotland" then
    [(nextWeekdayOnOrAfter 0 (easterRD y), easterMondayName s)]
  else []

/-- The `dt` anchor of the May Day block: May 8 in 1995, else May 1. -/
def mayDayAnchor (y : Nat) : Nat := if y = 1995 then toRD y 5 8 else toRD y 5 1

/-- The "May Day" block of `UnitedKingdom._country_specific`: year gate
1978, the 2020 VE-Day override to May 8, the 1995 anchor May 8, otherwise
anchor May 1, then one independent `if` per weekday of the anchor. -/
def mayDay (y : Nat) : List (Nat × String) :=
  if 1978 ≤ y then
    if y = 2020 then [(toRD y 5 8, "May Day")]
    else
      (if weekday (mayDayAnchor y) = 0 then [(mayDayAnchor y, "May Day")] else []) ++
      (if weekday (mayDayAnchor y) = 1 then [(mayDayAnchor y + 6, "May Day")] else []) ++
      (if weekday (mayDayAnchor y) = 2 then [(mayDayAnchor y + 5, "May Day")] else []) ++
      (if weekday (mayDayAnchor y) = 3 then [(mayDayAnchor y + 4, "May Day")] else []) ++
      (if weekday (mayDayAnchor y) = 4 then [(mayDayAnchor y + 3, "May Day")] else []) ++
      (if weekday (mayDayAnchor y) = 5 then [(mayDayAnchor y + 2, "May Day")] else []) ++
      (if weekday (mayDayAnchor y) = 6 then [(mayDayAnchor y + 1, "May Day")] else [])
  else []

/-- The "Spring bank holiday" block of `UnitedKingdom._country_specific`:
June 4 in 2012, June 2 in 2022, else the last Monday in May for
years ≥ 1971 (`date(year, MAY, 31) + rd(weekday=MO(-1))`). -/
def springBankHoliday (y : Nat) : List (Nat × String) :=
  if y = 2012 then [(toRD y 6 4, "Spring Bank Holiday")]
  else if y = 2022 then [(toRD y 6 2, "Spring Bank Holiday")]
  else if 1971 ≤ y then
    [(prevWeekdayOnOrBefore 0 (toRD y 5 31), "Spring Bank Holiday")]
  else []

/-- The "Late Summer bank holiday" block of `UnitedKingdom._country_specific`
(not Scotland, years ≥ 1971; last Monday in August). -/
def lateSummerBankHoliday (y : Nat) (s : String) : List (Nat × String) :=
  if s ≠ "Scotland" ∧ 1971 ≤ y then
    [(prevWeekdayOnOrBefore 0 (toRD y 8 31), lateSummerName s)]
  else []

/-- The "Boxing Day" block of `UnitedKingdom._country_specific` (all
subdivisions; Saturday or Sunday both shift the observed entry to Dec 28). -/
def boxingDay (y : Nat) (obs : Bool) : List (Nat × String) :=
  [(toRD y 12 26, "Boxing Day")] ++
    (if obs = true ∧ weekday (toRD y 12 26) = 5 then
      [(toRD y 12 28, "Boxing Day (Observed)")]
    else if obs = true ∧ weekday (toRD y 12 26) = 6 then
      [(toRD y 12 28, "Boxing Day (Observed)")]
    else [])

/-- The `special_holidays` table of class `UnitedKingdom`, as the list of
entries declared for year `y`. -/
def specialHolidays (y : Nat) : List (Nat × String) :=
  if y = 1977 then [(toRD y 6 7, "Silver Jubilee of Elizabeth II")]
  else if y = 1981 then [(toRD y 7 29, "Wedding of Charles and Diana")]
  else if y = 1999 then [(toRD y 12 31, "Millennium Celebrations")]
  else if y = 2002 then [(toRD y 6 3, "Golden Jubilee of Elizabeth II")]
  else if y = 2011 then [(toRD y 4 29, "Wedding of William and Catherine")]
  else if y = 2012 then [(toRD y 6 5, "Diamond Jubilee of Elizabeth II")]
  else if y = 2022 then
    [(toRD y 6 3, "Platinum Jubilee of Elizabeth II"),
     (toRD y 9 19, "State Funeral of Queen Elizabeth II")]
  else []

/-- `UnitedKingdom._country_specific` in program order. -/
def countrySpecific (y : Nat) (s : String) (obs : Bool) : List (Nat × String) :=
  goodFriday y ++ easterMonday y s ++ mayDay y ++ springBankHoliday y
    ++ lateSummerBankHoliday y s ++ boxingDay y obs

/-- Modelled from the spec: `HolidayBase._populate` (the base class is not
under `src/`) merges every special occasion of the requested year into the
result unconditionally, with no subdivision filtering and no observed
shift; per spec section 4.4 step 5 this merge happens after all rule
entries. -/
def mergeSpecials (y : Nat) (entries : List (Nat × String)) : List (Nat × String) :=
  entries ++ specialHolidays y

/-- All dict assignments performed when `UnitedKingdom` is populated for
`(year, subdivision, observed)`, in program order. -/
def populate (y : Nat) (s : String) (obs : Bool) : List (Nat × String) :=
  mergeSpecials y
    (newYearsDay y obs ++ newYearHoliday y s obs ++ stPatricksDay y s obs
      ++ battleOfTheBoyne y s ++ summerBankHoliday y s ++ stAndrewsDay y s
      ++ christmasDay y obs ++ countrySpecific y s obs)

/-- Python dict lookup over the assignment sequence: the value of the last
assignment to key `d`, if any. -/
def lookup (m : List (Nat × String)) (d : Nat) : Option String :=
  (m.reverse.find? (fun p => p.1 == d)).map Prod.snd

/-- The key set of the result map, as the list of assigned dates. -/
def dates (m : List (Nat × String)) : List Nat := m.map Prod.fst

/-- The names of all special occasions in the `special_holidays` table. -/
def specialNames : List String :=
  ["Silver Jubilee of Elizabeth II", "Wedding of Charles and Diana",
   "Millennium Celebrations", "Golden Jubilee of Elizabeth II",
   "Wedding of William and Catherine", "Diamond Jubilee of Elizabeth II",
   "Platinum Jubilee of Elizabeth II", "State Funeral of Queen Elizabeth II"]

example : easterMD 2022 = (4, 17) := by decide
example : easterMD 2023 = (4, 9) := by decide
example : easterMD 2024 = (3, 31) := by decide
example : easterMD 2020 = (4, 12) := by decide
example : easterMD 2011 = (4, 24) := by decide
example : easterMD 1818 = (3, 22) := by decide
example : easterMD 2038 = (4, 25) := by decide
example : weekday (toRD 2022 1 1) = 5 := by decide
example : weekday (easterRD 2022) = 6 := by decide

/-! Arithmetic facts about the calendar primitives. -/

theorem weekday_nextWeekdayOnOrAfter (w n : Nat) (hw : w < 7) :
    weekday (nextWeekdayOnOrAfter w n) = w := by
  unfold nextWeekdayOnOrAfter weekday; omega

theorem nextWeekdayOnOrAfter_bounds (w n : Nat) :
    n ≤ nextWeekdayOnOrAfter w n ∧ nextWeekdayOnOrAfter w n < n + 7 := by
  unfold nextWeekdayOnOrAfter; omega

theorem nextWeekdayOnOrAfter_eq_self (w n : Nat) (h : weekday n = w) :
    nextWeekdayOnOrAfter w n = n := by
  unfold nextWeekdayOnOrAfter weekday at *; omega

theorem weekday_prevWeekdayOnOrBefore (w n : Nat) (hw : w < 7) (hn : 6 ≤ n) :
    weekday (prevWeekdayOnOrBefore w n) = w := by
  unfold prevWeekdayOnOrBefore weekday; omega

theorem prevWeekdayOnOrBefore_bounds (w n : Nat) :
    prevWeekdayOnOrBefore w n ≤ n ∧ n < prevWeekdayOnOrBefore w n + 7 := by
  unfold prevWeekdayOnOrBefore; omega

theorem le_toRD (y m d : Nat) : d ≤ toRD y m d := Nat.le_add_left d _

theorem toRD_add (y m d k : Nat) : toRD y m (d + k) = toRD y m d + k := by
  unfold toRD; omega

/-! Each rule block only produces its own holiday names. -/

theorem name_cases_nyh (s : String) :
    nyhName s = "New Year Holiday [Scotland]" ∨ nyhName s = "New Year Holiday" := by
  unfold nyhName; split
  · left; rfl
  · right; rfl

theorem name_cases_stPatrick (s : String) :
    stPatrickName s = "St. Patrick's Day [Northern Ireland]" ∨
      stPatrickName s = "St. Patrick's Day" := by
  unfold stPatrickName; split
  · left; rfl
  · right; rfl

theorem name_cases_boyne (s : String) :
    boyneName s = "Battle of the Boyne [Northern Ireland]" ∨
      boyneName s = "Battle of the Boyne" := by
  unfold boyneName; split
  · left; rfl
  · right; rfl

theorem name_cases_summer (s : String) :
    summerName s = "Summer Bank Holiday [Scotland]" ∨
      summerName s = "Summer Bank Holiday" := by
  unfold summerName; split
  · left; rfl
  · right; rfl

theorem name_cases_stAndrew (s : String) :
    stAndrewName s = "St. Andrew's Day [Scotland]" ∨
      stAndrewName s = "St. Andrew's Day" := by
  unfold stAndrewName; split
  · left; rfl
  · right; rfl

theorem name_cases_easterMonday (s : String) :
    easterMondayName s = "Easter Monday [England/Wales/Northern Ireland]" ∨
      easterMondayName s = "Easter Monday" := by
  unfold easterMondayName; split
  · left; rfl
  · right; rfl

theorem name_cases_lateSummer (s : String) :
    lateSummerName s = "Late Summer Bank Holiday [England/Wales/Northern Ireland]" ∨
      lateSummerName s = "Late Summer Bank Holiday" := by
  unfold lateSummerName; split
  · left; rfl
  · right; rfl

theorem mem_names_newYearsDay {y : Nat} {obs : Bool} {p : Nat × String}
    (h : p ∈ newYearsDay y obs) :
    p.2 = "New Year's Day" ∨ p.2 = "New Year's Day (Observed)" := by
  unfold newYearsDay at h
  split at h
  · rcases List.mem_append.1 h with h | h
    · rw [List.mem_singleton.1 h]; left; rfl
    · split at h
      · rw [List.mem_singleton.1 h]; right; rfl
      · split at h
        · rw [List.mem_singleton.1 h]; right; rfl
        · cases h
  · cases h

theorem mem_names_newYearHoliday {y : Nat} {s : String} {obs : Bool} {p : Nat × String}
    (h : p ∈ newYearHoliday y s obs) :
    p.2 = nyhName s ∨ p.2 = nyhName s ++ " (Observed)" := by
  unfold newYearHoliday at h
  split at h
  · rcases List.mem_append.1 h with h | h
    · rw [List.mem_singleton.1 h]; left; rfl
    · split at h
      · rw [List.mem_singleton.1 h]; right; rfl
      · split at h
        · rw [List.mem_singleton.1 h]; right; rfl
        · cases h
  · cases h

theorem mem_names_stPatricksDay {y : Nat} {s : String} {obs : Bool} {p : Nat × String}
    (h : p ∈ stPatricksDay y s obs) :
    p.2 = stPatrickName s ∨ p.2 = stPatrickName s ++ " (Observed)" := by
  unfold stPatricksDay at h
  split at h
  · rcases List.mem_append.1 h with h | h
    · rw [List.mem_singleton.1 h]; left; rfl
    · split at h
      · rw [List.mem_singleton.1 h]; right; rfl
      · cases h
  · cases h

theorem mem_names_battleOfTheBoyne {y : Nat} {s : String} {p : Nat × String}
    (h : p ∈ battleOfTheBoyne y s) : p.2 = boyneName s := by
  unfold battleOfTheBoyne at h
  split at h
  · rw [List.mem_singleton.1 h]
  · cases h

theorem mem_names_summerBankHoliday {y : Nat} {s : String} {p : Nat × String}
    (h : p ∈ summerBankHoliday y s) : p.2 = summerName s := by
  unfold summerBankHoliday at h
  split at h
  · rw [List.mem_singleton.1 h]
  · cases h

theorem mem_names_stAndrewsDay {y : Nat} {s : String} {p : Nat × String}
    (h : p ∈ stAndrewsDay y s) : p.2 = stAndrewName s := by
  unfold stAndrewsDay at h
  split at h
  · rw [List.mem_singleton.1 h]
  · cases h

theorem mem_names_christmasDay {y : Nat} {obs : Bool} {p : Nat × String}
    (h : p ∈ christmasDay y obs) :
    p.2 = "Christmas Day" ∨ p.2 = "Christmas Day (Observed)" := by
  unfold christmasDay at h
  rcases List.mem_append.1 h with h | h
  · rw [List.mem_singleton.1 h]; left; rfl
  · split at h
    · rw [List.mem_singleton.1 h]; right; rfl
    · split at h
      · rw [List.mem_singleton.1 h]; right; rfl
      · cases h

theorem mem_names_goodFriday {y : Nat} {p : Nat × String}
    (h : p ∈ goodFriday y) : p.2 = "Good Friday" := by
  unfold goodFriday at h
  rw [List.mem_singleton.1 h]

theorem mem_names_easterMonday {y : Nat} {s : String} {p : Nat × String}
    (h : p ∈ easterMonday y s) : p.2 = easterMondayName s := by
  unfold easterMonday at h
  split at h
  · rw [List.mem_singleton.1 h]
  · cases h

theorem mem_names_mayDay {y : Nat} {p : Nat × String}
    (h : p ∈ mayDay y) : p.2 = "May Day" := by
  unfold mayDay at h
  split at h
  · split at h
    · rw [List.mem_singleton.1 h]
    · simp only [List.mem_append] at h
      rcases h with ((((((h | h) | h) | h) | h) | h) | h) <;>
        (split at h
         · rw [List.mem_singleton.1 h]
         · cases h)
  · cases h

theorem mem_names_springBankHoliday {y : Nat} {p : Nat × String}
    (h : p ∈ springBankHoliday y) : p.2 = "Spring Bank Holiday" := by
  unfold springBankHoliday at h
  split at h
  · rw [List.mem_singleton.1 h]
  · split at h
    · rw [List.mem_singleton.1 h]
    · split at h
      · rw [List.mem_singleton.1 h]
      · cases h

theorem mem_names_lateSummerBankHoliday {y : Nat} {s : String} {p : Nat × String}
    (h : p ∈ lateSummerBankHoliday y s) : p.2 = lateSummerName s := by
  unfold lateSummerBankHoliday at h
  split at h
  · rw [List.mem_singleton.1 h]
  · cases h

theorem mem_names_boxingDay {y : Nat} {obs : Bool} {p : Nat × String}
    (h : p ∈ boxingDay y obs) :
    p.2 = "Boxing Day" ∨ p.2 = "Boxing Day (Observed)" := by
  unfold boxingDay at h
  rcases List.mem_append.1 h with h | h
  · rw [List.mem_singleton.1 h]; left; rfl
  · split at h
    · rw [List.mem_singleton.1 h]; right; rfl
    · split at h
      · rw [List.mem_singleton.1 h]; right; rfl
      · cases h

theorem mem_names_specialHolidays {y : Nat} {p : Nat × String}
    (h : p ∈ specialHolidays y) : p.2 ∈ specialNames := by
  unfold specialHolidays at h
  split at h
  · rw [List.mem_singleton.1 h]; simp [specialNames]
  · split at h
    · rw [List.mem_singleton.1 h]; simp [specialNames]
    · split at h
      · rw [List.mem_singleton.1 h]; simp [specialNames]
      · split at h
        · rw [List.mem_singleton.1 h]; simp [specialNames]
        · split at h
          · rw [List.mem_singleton.1 h]; simp [specialNames]
          · split at h
            · rw [List.mem_singleton.1 h]; simp [specialNames]
            · split at h
              · simp only [List.mem_cons, List.not_mem_nil, or_false] at h
                rcases h with h | h
                · rw [h]; simp [specialNames]
                · rw [h]; simp [specialNames]
              · cases h

/-! Filtering the assignment sequence by a name predicate that rejects a
block's names skips that block. -/

theorem filter_newYearsDay_nil {y : Nat} {obs : Bool} {f : Nat × String → Bool}
    (h1 : ∀ d, f (d, "New Year's Day") = false)
    (h2 : ∀ d, f (d, "New Year's Day (Observed)") = false) :
    (newYearsDay y obs).filter f = [] := by
  rw [List.filter_eq_nil_iff]
  intro p hp
  rcases mem_names_newYearsDay hp with h | h <;>
    (rw [show p = (p.1, p.2) from rfl, h]; simp [h1, h2])

theorem filter_newYearHoliday_nil {y : Nat} {s : String} {obs : Bool}
    {f : Nat × String → Bool}
    (h1 : ∀ d, f (d, nyhName s) = false)
    (h2 : ∀ d, f (d, nyhName s ++ " (Observed)") = false) :
    (newYearHoliday y s obs).filter f = [] := by
  rw [List.filter_eq_nil_iff]
  intro p hp
  rcases mem_names_newYearHoliday hp with h | h <;>
    (rw [show p = (p.1, p.2) from rfl, h]; simp [h1, h2])

theorem filter_stPatricksDay_nil {y : Nat} {s : String} {obs : Bool}
    {f : Nat × String → Bool}
    (h1 : ∀ d, f (d, stPatrickName s) = false)
    (h2 : ∀ d, f (d, stPatrickName s ++ " (Observed)") = false) :
    (stPatricksDay y s obs).filter f = [] := by
  rw [List.filter_eq_nil_iff]
  intro p hp
  rcases mem_names_stPatricksDay hp with h | h <;>
    (rw [show p = (p.1, p.2) from rfl, h]; simp [h1, h2])

theorem filter_battleOfTheBoyne_nil {y : Nat} {s : String} {f : Nat × String → Bool}
    (h1 : ∀ d, f (d, boyneName s) = false) :
    (battleOfTheBoyne y s).filter f = [] := by
  rw [List.filter_eq_nil_iff]
  intro p hp
  rw [show p = (p.1, p.2) from rfl, mem_names_battleOfTheBoyne hp]; simp [h1]

theorem filter_summerBankHoliday_nil {y : Nat} {s : String} {f : Nat × String → Bool}
    (h1 : ∀ d, f (d, summerName s) = false) :
    (summerBankHoliday y s).filter f = [] := by
  rw [List.filter_eq_nil_iff]
  intro p hp
  rw [show p = (p.1, p.2) from rfl, mem_names_summerBankHoliday hp]; simp [h1]

theorem filter_stAndrewsDay_nil {y : Nat} {s : String} {f : Nat × String → Bool}
    (h1 : ∀ d, f (d, stAndrewName s) = false) :
    (stAndrewsDay y s).filter f = [] := by
  rw [List.filter_eq_nil_iff]
  intro p hp
  rw [show p = (p.1, p.2) from rfl, mem_names_stAndrewsDay hp]; simp [h1]

theorem filter_christmasDay_nil {y : Nat} {obs : Bool} {f : Nat × String → Bool}
    (h1 : ∀ d, f (d, "Christmas Day") = false)
    (h2 : ∀ d, f (d, "Christmas Day (Observed)") = false) :
    (christmasDay y obs).filter f = [] := by
  rw [List.filter_eq_nil_iff]
  intro p hp
  rcases mem_names_christmasDay hp with h | h <;>
    (rw [show p = (p.1, p.2) from rfl, h]; simp [h1, h2])

theorem filter_goodFriday_nil {y : Nat} {f : Nat × String → Bool}
    (h1 : ∀ d, f (d, "Good Friday") = false) :
    (goodFriday y).filter f = [] := by
  rw [List.filter_eq_nil_iff]
  intro p hp
  rw [show p = (p.1, p.2) from rfl, mem_names_goodFriday hp]; simp [h1]

theorem filter_easterMonday_nil {y : Nat} {s : String} {f : Nat × String → Bool}
    (h1 : ∀ d, f (d, easterMondayName s) = false) :
    (easterMonday y s).filter f = [] := by
  rw [List.filter_eq_nil_iff]
  intro p hp
  rw [show p = (p.1, p.2) from rfl, mem_names_easterMonday hp]; simp [h1]

theorem filter_mayDay_nil {y : Nat} {f : Nat × String → Bool}
    (h1 : ∀ d, f (d, "May Day") = false) :
    (mayDay y).filter f = [] := by
  rw [List.filter_eq_nil_iff]
  intro p hp
  rw [show p = (p.1, p.2) from rfl, mem_names_mayDay hp]; simp [h1]

theorem filter_springBankHoliday_nil {y : Nat} {f : Nat × String → Bool}
    (h1 : ∀ d, f (d, "Spring Bank Holiday") = false) :
    (springBankHoliday y).filter f = [] := by
  rw [List.filter_eq_nil_iff]
  intro p hp
  rw [show p = (p.1, p.2) from rfl, mem_names_springBankHoliday hp]; simp [h1]

theorem filter_lateSummerBankHoliday_nil {y : Nat} {s : String} {f : Nat × String → Bool}
    (h1 : ∀ d, f (d, lateSummerName s) = false) :
    (lateSummerBankHoliday y s).filter f = [] := by
  rw [List.filter_eq_nil_iff]
  intro p hp
  rw [show p = (p.1, p.2) from rfl, mem_names_lateSummerBankHoliday hp]; simp [h1]

theorem filter_boxingDay_nil {y : Nat} {obs : Bool} {f : Nat × String → Bool}
    (h1 : ∀ d, f (d, "Boxing Day") = false)
    (h2 : ∀ d, f (d, "Boxing Day (Observed)") = false) :
    (boxingDay y obs).filter f = [] := by
  rw [List.filter_eq_nil_iff]
  intro p hp
  rcases mem_names_boxingDay hp with h | h <;>
    (rw [show p = (p.1, p.2) from rfl, h]; simp [h1, h2])

theorem filter_specialHolidays_nil {y : Nat} {f : Nat × String → Bool}
    (h1 : ∀ n ∈ specialNames, ∀ d, f (d, n) = false) :
    (specialHolidays y).filter f = [] := by
  rw [List.filter_eq_nil_iff]
  intro p hp
  rw [show p = (p.1, p.2) from rfl]
  simp [h1 p.2 (mem_names_specialHolidays hp) p.1]

/-- Filtering distributes over the blocks of `populate`. -/
theorem filter_populate (y : Nat) (s : String) (obs : Bool) (f : Nat × String → Bool) :
    (populate y s obs).filter f =
      (newYearsDay y obs).filter f ++ (newYearHoliday y s obs).filter f
        ++ (stPatricksDay y s obs).filter f ++ (battleOfTheBoyne y s).filter f
        ++ (summerBankHoliday y s).filter f ++ (stAndrewsDay y s).filter f
        ++ (christmasDay y obs).filter f ++ (goodFriday y).filter f
        ++ (easterMonday y s).filter f ++ (mayDay y).filter f
        ++ (springBankHoliday y).filter f ++ (lateSummerBankHoliday y s).filter f
        ++ (boxingDay y obs).filter f ++ (specialHolidays y).filter f := by
  simp [populate, mergeSpecials, countrySpecific, List.filter_append]

/-- Every name assigned by `populate` is one of the rule names (possibly
decorated and/or with the observed suffix) or a special-occasion name. -/
theorem mem_names_populate {y : Nat} {s : String} {obs : Bool} {p : Nat × String}
    (h : p ∈ populate y s obs) :
    p.2 = "New Year's Day" ∨ p.2 = "New Year's Day (Observed)"
    ∨ p.2 = nyhName s ∨ p.2 = nyhName s ++ " (Observed)"
    ∨ p.2 = stPatrickName s ∨ p.2 = stPatrickName s ++ " (Observed)"
    ∨ p.2 = boyneName s ∨ p.2 = summerName s ∨ p.2 = stAndrewName s
    ∨ p.2 = "Christmas Day" ∨ p.2 = "Christmas Day (Observed)"
    ∨ p.2 = "Good Friday" ∨ p.2 = easterMondayName s ∨ p.2 = "May Day"
    ∨ p.2 = "Spring Bank Holiday" ∨ p.2 = lateSummerName s
    ∨ p.2 = "Boxing Day" ∨ p.2 = "Boxing Day (Observed)"
    ∨ p.2 ∈ specialNames := by
  unfold populate mergeSpecials countrySpecific at h
  simp only [List.append_assoc, List.mem_append] at h
  rcases h with h | h | h | h | h | h | h | h | h | h | h | h | h | h
  · rcases mem_names_newYearsDay h with h | h <;> tauto
  · rcases mem_names_newYearHoliday h with h | h <;> tauto
  · rcases mem_names_stPatricksDay h with h | h <;> tauto
  · have := mem_names_battleOfTheBoyne h; tauto
  · have := mem_names_summerBankHoliday h; tauto
  · have := mem_names_stAndrewsDay h; tauto
  · rcases mem_names_christmasDay h with h | h <;> tauto
  · have := mem_names_goodFriday h; tauto
  · have := mem_names_easterMonday h; tauto
  · have := mem_names_mayDay h; tauto
  · have := mem_names_springBankHoliday h; tauto
  · have := mem_names_lateSummerBankHoliday h; tauto
  · rcases mem_names_boxingDay h with h | h <;> tauto
  · have := mem_names_specialHolidays h; tauto

/-- Dict lookup over concatenated assignment sequences: the later block
wins when it assigns the key. -/
theorem lookup_append (a b : List (Nat × String)) (d : Nat) :
    lookup (a ++ b) d =
      match lookup b d with
      | some v => some v
      | none => lookup a d := by
  unfold lookup
  rw [List.reverse_append, List.find?_append]
  cases hb : List.find? (fun p => p.1 == d) b.reverse <;> simp [hb, Option.orElse]

/-- A date carried by the special-occasion table of the queried year wins
the final lookup (the table is merged last). -/
theorem lookup_populate_special (y : Nat) (s : String) (obs : Bool) (d : Nat) (v : String)
    (h : lookup (specialHolidays y) d = some v) :
    lookup (populate y s obs) d = some v := by
  unfold populate mergeSpecials
  rw [lookup_append, h]

/-- The year a special occasion name is declared for in `special_holidays`. -/
def declYear (n : String) : Nat :=
  if n = "Silver Jubilee of Elizabeth II" then 1977
  else if n = "Wedding of Charles and Diana" then 1981
  else if n = "Millennium Celebrations" then 1999
  else if n = "Golden Jubilee of Elizabeth II" then 2002
  else if n = "Wedding of William and Catherine" then 2011
  else if n = "Diamond Jubilee of Elizabeth II" then 2012
  else 2022

theorem specialHolidays_declYear {y : Nat} {p : Nat × String}
    (h : p ∈ specialHolidays y) : y = declYear p.2 := by
  unfold specialHolidays at h
  split at h
  · subst_vars; rw [List.mem_singleton.1 h]; decide
  · split at h
    · subst_vars; rw [List.mem_singleton.1 h]; decide
    · split at h
      · subst_vars; rw [List.mem_singleton.1 h]; decide
      · split at h
        · subst_vars; rw [List.mem_singleton.1 h]; decide
        · split at h
          · subst_vars; rw [List.mem_singleton.1 h]; decide
          · split at h
            · subst_vars; rw [List.mem_singleton.1 h]; decide
            · split at h
              · subst_vars
                simp only [List.mem_cons, List.not_mem_nil, or_false] at h
                rcases h with h | h <;> (rw [h]; decide)
              · cases h

theorem lookup_specialHolidays_self {y : Nat} {p : Nat × String}
    (hp : p ∈ specialHolidays y) : lookup (specialHolidays y) p.1 = some p.2 := by
  unfold specialHolidays at hp
  split at hp
  · subst_vars; rw [List.mem_singleton.1 hp]; decide
  · split at hp
    · subst_vars; rw [List.mem_singleton.1 hp]; decide
    · split at hp
      · subst_vars; rw [List.mem_singleton.1 hp]; decide
      · split at hp
        · subst_vars; rw [List.mem_singleton.1 hp]; decide
        · split at hp
          · subst_vars; rw [List.mem_singleton.1 hp]; decide
          · split at hp
            · subst_vars; rw [List.mem_singleton.1 hp]; decide
            · split at hp
              · subst_vars
                simp only [List.mem_cons, List.not_mem_nil, or_false] at hp
                rcases hp with h | h <;> (rw [h]; decide)
              · cases hp

/-- A name from the special-occasion table can only have been assigned by
the special-occasion merge of its declared year: the rule blocks never
produce such a name. -/
theorem special_name_mem_populate {y : Nat} {s : String} {obs : Bool} {d : Nat} {n : String}
    (hn : n ∈ specialNames) (h : (d, n) ∈ populate y s obs) : y = declYear n := by
  unfold populate mergeSpecials countrySpecific at h
  simp only [List.append_assoc, List.mem_append] at h
  rcases h with h | h | h | h | h | h | h | h | h | h | h | h | h | h
  · rcases mem_names_newYearsDay h with h2 | h2 <;> rw [show ((d, n) : Nat × String).2 = n from rfl] at h2 <;>
      rw [h2] at hn <;> exact absurd hn (by decide)
  · rcases name_cases_nyh s with hc | hc <;> rcases mem_names_newYearHoliday h with h2 | h2 <;>
      rw [hc] at h2 <;> rw [show ((d, n) : Nat × String).2 = n from rfl] at h2 <;>
      rw [h2] at hn <;> exact absurd hn (by decide)
  · rcases name_cases_stPatrick s with hc | hc <;> rcases mem_names_stPatricksDay h with h2 | h2 <;>
      rw [hc] at h2 <;> rw [show ((d, n) : Nat × String).2 = n from rfl] at h2 <;>
      rw [h2] at hn <;> exact absurd hn (by decide)
  · rcases name_cases_boyne s with hc | hc <;> have h2 := mem_names_battleOfTheBoyne h <;>
      rw [hc] at h2 <;> rw [show ((d, n) : Nat × String).2 = n from rfl] at h2 <;>
      rw [h2] at hn <;> exact absurd hn (by decide)
  · rcases name_cases_summer s with hc | hc <;> have h2 := mem_names_summerBankHoliday h <;>
      rw [hc] at h2 <;> rw [show ((d, n) : Nat × String).2 = n from rfl] at h2 <;>
      rw [h2] at hn <;> exact absurd hn (by decide)
  · rcases name_cases_stAndrew s with hc | hc <;> have h2 := mem_names_stAndrewsDay h <;>
      rw [hc] at h2 <;> rw [show ((d, n) : Nat × String).2 = n from rfl] at h2 <;>
      rw [h2] at hn <;> exact absurd hn (by decide)
  · rcases mem_names_christmasDay h with h2 | h2 <;> rw [show ((d, n) : Nat × String).2 = n from rfl] at h2 <;>
      rw [h2] at hn <;> exact absurd hn (by decide)
  · have h2 := mem_names_goodFriday h
    rw [show ((d, n) : Nat × String).2 = n from rfl] at h2
    rw [h2] at hn; exact absurd hn (by decide)
  · rcases name_cases_easterMonday s with hc | hc <;> have h2 := mem_names_easterMonday h <;>
      rw [hc] at h2 <;> rw [show ((d, n) : Nat × String).2 = n from rfl] at h2 <;>
      rw [h2] at hn <;> exact absurd hn (by decide)
  · have h2 := mem_names_mayDay h
    rw [show ((d, n) : Nat × String).2 = n from rfl] at h2
    rw [h2] at hn; exact absurd hn (by decide)
  · have h2 := mem_names_springBankHoliday h
    rw [show ((d, n) : Nat × String).2 = n from rfl] at h2
    rw [h2] at hn; exact absurd hn (by decide)
  · rcases name_cases_lateSummer s with hc | hc <;> have h2 := mem_names_lateSummerBankHoliday h <;>
      rw [hc] at h2 <;> rw [show ((d, n) : Nat × String).2 = n from rfl] at h2 <;>
      rw [h2] at hn <;> exact absurd hn (by decide)
  · rcases mem_names_boxingDay h with h2 | h2 <;> rw [show ((d, n) : Nat × String).2 = n from rfl] at h2 <;>
      rw [h2] at hn <;> exact absurd hn (by decide)
  · exact specialHolidays_declYear h

/-- No observed substitute is ever generated for a special-occasion name. -/
theorem special_observed_not_mem_populate {y : Nat} {s : String} {obs : Bool} {d : Nat}
    {n : String} (hn : n ∈ specialNames) : (d, n ++ " (Observed)") ∉ populate y s obs := by
  intro h
  have h2 := mem_names_populate h
  rw [show ((d, n ++ " (Observed)") : Nat × String).2 = n ++ " (Observed)" from rfl] at h2
  fin_cases hn <;>
    rcases h2 with h2 | h2 | h2 | h2 | h2 | h2 | h2 | h2 | h2 | h2 | h2 | h2 | h2 | h2 | h2 | h2 | h2 | h2 | h2 <;>
    first
      | (revert h2; decide)
      | (rcases name_cases_nyh s with hc | hc <;> rw [hc] at h2 <;> revert h2 <;> decide)
      | (rcases name_cases_stPatrick s with hc | hc <;> rw [hc] at h2 <;> revert h2 <;> decide)
      | (rcases name_cases_boyne s with hc | hc <;> rw [hc] at h2 <;> revert h2 <;> decide)
      | (rcases name_cases_summer s with hc | hc <;> rw [hc] at h2 <;> revert h2 <;> decide)
      | (rcases name_cases_stAndrew s with hc | hc <;> rw [hc] at h2 <;> revert h2 <;> decide)
      | (rcases name_cases_easterMonday s with hc | hc <;> rw [hc] at h2 <;> revert h2 <;> decide)
      | (rcases name_cases_lateSummer s with hc | hc <;> rw [hc] at h2 <;> revert h2 <;> decide)

theorem toRD_jan1_add2 (y : Nat) : toRD y 1 1 + 2 = toRD y 1 3 := by
  unfold toRD; omega

theorem toRD_jan1_add1 (y : Nat) : toRD y 1 1 + 1 = toRD y 1 2 := by
  unfold toRD; omega

theorem toRD_jan2_add2 (y : Nat) : toRD y 1 2 + 2 = toRD y 1 4 := by
  unfold toRD; omega

theorem toRD_jan2_add1 (y : Nat) : toRD y 1 2 + 1 = toRD y 1 3 := by
  unfold toRD; omega

/-- The predicate selecting the map assignments that carry name `x`. -/
def isName (x : String) : Nat × String → Bool := fun p => p.2 == x

/-- Exact filter of the New Year's Day block by its observed name. -/
theorem filter_newYearsDay_self (y : Nat) (h : 1974 ≤ y) :
    (newYearsDay y true).filter (isName "New Year's Day (Observed)") =
      if weekday (toRD y 1 1) = 6 then [(toRD y 1 2, "New Year's Day (Observed)")]
      else if weekday (toRD y 1 1) = 5 then [(toRD y 1 3, "New Year's Day (Observed)")]
      else [] := by
  unfold newYearsDay
  rw [if_pos h, List.filter_append]
  rw [show List.filter (isName "New Year's Day (Observed)")
        [(toRD y 1 1, "New Year's Day")] = [] from by simp [isName, List.filter_cons]]
  rw [List.nil_append]
  split
  · rename_i hc
    rw [if_pos hc.2, toRD_jan1_add1]
    simp [isName, List.filter_cons]
  · split
    · rename_i hc hc2
      rw [if_neg, if_pos hc2.2]
      · rw [toRD_jan1_add2]; simp [isName, List.filter_cons]
      · intro hx; exact hc ⟨rfl, hx⟩
    · rename_i hc hc2
      rw [if_neg, if_neg]
      · rfl
      · intro hx; exact hc2 ⟨rfl, hx⟩
      · intro hx; exact hc ⟨rfl, hx⟩

/-! The claims. -/

/-- C1: for year 2022, subdivision "UK", observed true, the result map
contains 2022-06-03 "Platinum Jubilee of Elizabeth II", 2022-09-19
"State Funeral of Queen Elizabeth II", 2022-06-02 "Spring Bank Holiday",
2022-01-01 "New Year's Day", and "New Year's Day (Observed)" on
2022-01-03. -/
theorem C1_uk_2022_scenario :
    lookup (populate 2022 "UK" true) (toRD 2022 6 3)
        = some "Platinum Jubilee of Elizabeth II"
    ∧ lookup (populate 2022 "UK" true) (toRD 2022 9 19)
        = some "State Funeral of Queen Elizabeth II"
    ∧ lookup (populate 2022 "UK" true) (toRD 2022 6 2)
        = some "Spring Bank Holiday"
    ∧ lookup (populate 2022 "UK" true) (toRD 2022 1 1)
        = some "New Year's Day"
    ∧ lookup (populate 2022 "UK" true) (toRD 2022 1 3)
        = some "New Year's Day (Observed)" := by
  decide

/-- C3: for every year ≥ 1974 with observed true (any subdivision), the
engine inserts exactly one "New Year's Day (Observed)" entry, on January 3
when January 1 is a Saturday, on January 2 when January 1 is a Sunday, and
none when January 1 is a weekday. -/
theorem C3_new_years_observed_exact (y : Nat) (s : String) (h : 1974 ≤ y) :
    (populate y s true).filter (isName "New Year's Day (Observed)") =
      if weekday (toRD y 1 1) = 5 then [(toRD y 1 3, "New Year's Day (Observed)")]
      else if weekday (toRD y 1 1) = 6 then [(toRD y 1 2, "New Year's Day (Observed)")]
      else [] := by
  rw [filter_populate]
  have hnyh : (newYearHoliday y s true).filter (isName "New Year's Day (Observed)") = [] := by
    apply filter_newYearHoliday_nil <;> intro d <;> simp only [isName] <;>
      rcases name_cases_nyh s with hc | hc <;> rw [hc] <;> decide
  have hsp : (stPatricksDay y s true).filter (isName "New Year's Day (Observed)") = [] := by
    apply filter_stPatricksDay_nil <;> intro d <;> simp only [isName] <;>
      rcases name_cases_stPatrick s with hc | hc <;> rw [hc] <;> decide
  have hbb : (battleOfTheBoyne y s).filter (isName "New Year's Day (Observed)") = [] := by
    apply filter_battleOfTheBoyne_nil <;> intro d <;> simp only [isName] <;>
      rcases name_cases_boyne s with hc | hc <;> rw [hc] <;> decide
  have hsb : (summerBankHoliday y s).filter (isName "New Year's Day (Observed)") = [] := by
    apply filter_summerBankHoliday_nil <;> intro d <;> simp only [isName] <;>
      rcases name_cases_summer s with hc | hc <;> rw [hc] <;> decide
  have hsa : (stAndrewsDay y s).filter (isName "New Year's Day (Observed)") = [] := by
    apply filter_stAndrewsDay_nil <;> intro d <;> simp only [isName] <;>
      rcases name_cases_stAndrew s with hc | hc <;> rw [hc] <;> decide
  have hcd : (christmasDay y true).filter (isName "New Year's Day (Observed)") = [] := by
    apply filter_christmasDay_nil <;> intro d <;> simp only [isName] <;> decide
  have hgf : (goodFriday y).filter (isName "New Year's Day (Observed)") = [] := by
    apply filter_goodFriday_nil <;> intro d <;> simp only [isName] <;> decide
  have hem : (easterMonday y s).filter (isName "New Year's Day (Observed)") = [] := by
    apply filter_easterMonday_nil <;> intro d <;> simp only [isName] <;>
      rcases name_cases_easterMonday s with hc | hc <;> rw [hc] <;> decide
  have hmd : (mayDay y).filter (isName "New Year's Day (Observed)") = [] := by
    apply filter_mayDay_nil <;> intro d <;> simp only [isName] <;> decide
  have hsbh : (springBankHoliday y).filter (isName "New Year's Day (Observed)") = [] := by
    apply filter_springBankHoliday_nil <;> intro d <;> simp only [isName] <;> decide
  have hls : (lateSummerBankHoliday y s).filter (isName "New Year's Day (Observed)") = [] := by
    apply filter_lateSummerBankHoliday_nil <;> intro d <;> simp only [isName] <;>
      rcases name_cases_lateSummer s with hc | hc <;> rw [hc] <;> decide
  have hbd : (boxingDay y true).filter (isName "New Year's Day (Observed)") = [] := by
    apply filter_boxingDay_nil <;> intro d <;> simp only [isName] <;> decide
  have hsh : (specialHolidays y).filter (isName "New Year's Day (Observed)") = [] := by
    apply filter_specialHolidays_nil
    intro n hn d; simp only [isName]
    fin_cases hn <;> decide
  rw [hnyh, hsp, hbb, hsb, hsa, hcd, hgf, hem, hmd, hsbh, hls, hbd, hsh]
  simp only [List.append_nil, List.nil_append]
  rw [filter_newYearsDay_self y h]
  by_cases h5 : weekday (toRD y 1 1) = 5 <;> by_cases h6 : weekday (toRD y 1 1) = 6
  · exact absurd (h5.symm.trans h6) (by decide)
  · simp [h5, h6]
  · simp [h5, h6]
  · simp [h5, h6]

theorem C3_new_years_observed_exact_witness :
    (populate 2022 "Northern Ireland" true).filter (isName "New Year's Day (Observed)") =
      [(toRD 2022 1 3, "New Year's Day (Observed)")] := by
  rw [C3_new_years_observed_exact 2022 "Northern Ireland" (by decide)]
  decide

/-- Exact filter of the New Year Holiday block by its observed name. -/
theorem filter_newYearHoliday_self (y : Nat) (s : String) (hs : s = "UK" ∨ s = "Scotland") :
    (newYearHoliday y s true).filter (isName (nyhName s ++ " (Observed)")) =
      if weekday (toRD y 1 2) = 5 ∨ weekday (toRD y 1 2) = 6 then
        [(toRD y 1 4, nyhName s ++ " (Observed)")]
      else if weekday (toRD y 1 2) = 0 then
        [(toRD y 1 3, nyhName s ++ " (Observed)")]
      else [] := by
  unfold newYearHoliday
  rw [if_pos hs, List.filter_append]
  rw [show List.filter (isName (nyhName s ++ " (Observed)")) [(toRD y 1 2, nyhName s)] = []
      from by rcases name_cases_nyh s with hc | hc <;> rw [hc] <;> simp [isName, List.filter_cons]]
  rw [List.nil_append]
  split
  · rename_i hc
    rw [if_pos hc.2, toRD_jan2_add2]
    simp [isName, List.filter_cons]
  · split
    · rename_i hc hc2
      rw [if_neg, if_pos hc2.2]
      · rw [toRD_jan2_add1]; simp [isName, List.filter_cons]
      · intro hx; exact hc ⟨rfl, hx⟩
    · rename_i hc hc2
      rw [if_neg, if_neg]
      · rfl
      · intro hx; exact hc2 ⟨rfl, hx⟩
      · intro hx; exact hc ⟨rfl, hx⟩

/-- C2 counterexample: in 2022 (January 2 is a Sunday) with subdivision
"UK" and observed true, the unique New Year Holiday observed substitute
sits on 2022-01-04, which is a Tuesday (weekday 1), not a Monday — so the
substitute is not "placed on the next Monday". -/
theorem C2_counterexample :
    (populate 2022 "UK" true).filter (isName "New Year Holiday [Scotland] (Observed)") =
      [(toRD 2022 1 4, "New Year Holiday [Scotland] (Observed)")]
    ∧ weekday (toRD 2022 1 4) = 1 := by
  decide

/-- C2 (amended): for every year, with subdivision "UK" or "Scotland" and
observed true, exactly one New Year Holiday observed substitute is
inserted, at January 4 (+2 days) when January 2 falls on Saturday or
Sunday, at January 3 (+1 day) when January 2 falls on Monday, and none
otherwise; the substitute's position does not avoid already-occupied
dates and need not be a Monday. -/
theorem C2_nyh_observed_exact (y : Nat) (s : String) (hs : s = "UK" ∨ s = "Scotland") :
    (populate y s true).filter (isName (nyhName s ++ " (Observed)")) =
      if weekday (toRD y 1 2) = 5 ∨ weekday (toRD y 1 2) = 6 then
        [(toRD y 1 4, nyhName s ++ " (Observed)")]
      else if weekday (toRD y 1 2) = 0 then
        [(toRD y 1 3, nyhName s ++ " (Observed)")]
      else [] := by
  rw [filter_populate]
  have hnyd : (newYearsDay y true).filter (isName (nyhName s ++ " (Observed)")) = [] := by
    apply filter_newYearsDay_nil <;> intro d <;> simp only [isName] <;>
      rcases name_cases_nyh s with ht | ht <;> rw [ht] <;> decide
  have hsp : (stPatricksDay y s true).filter (isName (nyhName s ++ " (Observed)")) = [] := by
    apply filter_stPatricksDay_nil <;> intro d <;> simp only [isName] <;>
      rcases name_cases_nyh s with ht | ht <;> rcases name_cases_stPatrick s with hc | hc <;>
      rw [ht, hc] <;> decide
  have hbb : (battleOfTheBoyne y s).filter (isName (nyhName s ++ " (Observed)")) = [] := by
    apply filter_battleOfTheBoyne_nil <;> intro d <;> simp only [isName] <;>
      rcases name_cases_nyh s with ht | ht <;> rcases name_cases_boyne s with hc | hc <;>
      rw [ht, hc] <;> decide
  have hsb : (summerBankHoliday y s).filter (isName (nyhName s ++ " (Observed)")) = [] := by
    apply filter_summerBankHoliday_nil <;> intro d <;> simp only [isName] <;>
      rcases name_cases_nyh s with ht | ht <;> rcases name_cases_summer s with hc | hc <;>
      rw [ht, hc] <;> decide
  have hsa : (stAndrewsDay y s).filter (isName (nyhName s ++ " (Observed)")) = [] := by
    apply filter_stAndrewsDay_nil <;> intro d <;> simp only [isName] <;>
      rcases name_cases_nyh s with ht | ht <;> rcases name_cases_stAndrew s with hc | hc <;>
      rw [ht, hc] <;> decide
  have hcd : (christmasDay y true).filter (isName (nyhName s ++ " (Observed)")) = [] := by
    apply filter_christmasDay_nil <;> intro d <;> simp only [isName] <;>
      rcases name_cases_nyh s with ht | ht <;> rw [ht] <;> decide
  have hgf : (goodFriday y).filter (isName (nyhName s ++ " (Observed)")) = [] := by
    apply filter_goodFriday_nil <;> intro d <;> simp only [isName] <;>
      rcases name_cases_nyh s with ht | ht <;> rw [ht] <;> decide
  have hem : (easterMonday y s).filter (isName (nyhName s ++ " (Observed)")) = [] := by
    apply filter_easterMonday_nil <;> intro d <;> simp only [isName] <;>
      rcases name_cases_nyh s with ht | ht <;> rcases name_cases_easterMonday s with hc | hc <;>
      rw [ht, hc] <;> decide
  have hmd : (mayDay y).filter (isName (nyhName s ++ " (Observed)")) = [] := by
    apply filter_mayDay_nil <;> intro d <;> simp only [isName] <;>
      rcases name_cases_nyh s with ht | ht <;> rw [ht] <;> decide
  have hsbh : (springBankHoliday y).filter (isName (nyhName s ++ " (Observed)")) = [] := by
    apply filter_springBankHoliday_nil <;> intro d <;> simp only [isName] <;>
      rcases name_cases_nyh s with ht | ht <;> rw [ht] <;> decide
  have hls : (lateSummerBankHoliday y s).filter (isName (nyhName s ++ " (Observed)")) = [] := by
    apply filter_lateSummerBankHoliday_nil <;> intro d <;> simp only [isName] <;>
      rcases name_cases_nyh s with ht | ht <;> rcases name_cases_lateSummer s with hc | hc <;>
      rw [ht, hc] <;> decide
  have hbd : (boxingDay y true).filter (isName (nyhName s ++ " (Observed)")) = [] := by
    apply filter_boxingDay_nil <;> intro d <;> simp only [isName] <;>
      rcases name_cases_nyh s with ht | ht <;> rw [ht] <;> decide
  have hsh : (specialHolidays y).filter (isName (nyhName s ++ " (Observed)")) = [] := by
    apply filter_specialHolidays_nil
    intro n hn d; simp only [isName]
    rcases name_cases_nyh s with ht | ht <;> rw [ht] <;> fin_cases hn <;> decide
  rw [hnyd, hsp, hbb, hsb, hsa, hcd, hgf, hem, hmd, hsbh, hls, hbd, hsh]
  simp only [List.append_nil, List.nil_append]
  exact filter_newYearHoliday_self y s hs

theorem C2_nyh_observed_exact_witness :
    (populate 2021 "Scotland" true).filter (isName (nyhName "Scotland" ++ " (Observed)")) =
      [(toRD 2021 1 4, nyhName "Scotland" ++ " (Observed)")] := by
  rw [C2_nyh_observed_exact 2021 "Scotland" (Or.inr rfl)]
  decide

/-- C5: for every year and subdivision, each special occasion declared for
that year appears in the result map at its declared date with its declared
name (no subdivision filtering, the merge wins the final lookup), no
observed substitute is generated for it, and special occasions declared
for any other year are absent (their names never appear). -/
theorem C5_specials_merged (y : Nat) (s : String) (obs : Bool) :
    (∀ p ∈ specialHolidays y, lookup (populate y s obs) p.1 = some p.2)
    ∧ (∀ y2 q, q ∈ specialHolidays y2 → y2 ≠ y →
        ∀ d, (d, q.2) ∉ populate y s obs)
    ∧ (∀ p ∈ specialHolidays y, ∀ d,
        (d, p.2 ++ " (Observed)") ∉ populate y s obs) := by
  refine ⟨fun p hp => lookup_populate_special _ _ _ _ _ (lookup_specialHolidays_self hp),
    fun y2 q hq hne d hd => ?_,
    fun p hp d => special_observed_not_mem_populate (mem_names_specialHolidays hp)⟩
  exact hne ((specialHolidays_declYear hq).trans
    (special_name_mem_populate (mem_names_specialHolidays hq) hd).symm)

theorem C5_specials_merged_witness :
    lookup (populate 2022 "England" true) (toRD 2022 9 19)
      = some "State Funeral of Queen Elizabeth II" :=
  (C5_specials_merged 2022 "England" true).1
    (toRD 2022 9 19, "State Funeral of Queen Elizabeth II") (by decide)

/-- An assignment bearing a New Year's Day name (base or observed) can only
come from the New Year's Day block. -/
theorem nyd_name_mem_populate {y : Nat} {s : String} {obs : Bool} {d : Nat} {n : String}
    (hd : (d, n) ∈ populate y s obs)
    (hn : n = "New Year's Day" ∨ n = "New Year's Day (Observed)") :
    (d, n) ∈ newYearsDay y obs := by
  unfold populate mergeSpecials countrySpecific at hd
  simp only [List.append_assoc, List.mem_append] at hd
  rcases hd with h | h | h | h | h | h | h | h | h | h | h | h | h | h
  · exact h
  · rcases name_cases_nyh s with hc | hc <;> rcases mem_names_newYearHoliday h with h2 | h2 <;>
      rw [hc] at h2 <;> rw [show ((d, n) : Nat × String).2 = n from rfl] at h2 <;>
      rcases hn with hn | hn <;> rw [hn] at h2 <;> exact absurd h2 (by decide)
  · rcases name_cases_stPatrick s with hc | hc <;> rcases mem_names_stPatricksDay h with h2 | h2 <;>
      rw [hc] at h2 <;> rw [show ((d, n) : Nat × String).2 = n from rfl] at h2 <;>
      rcases hn with hn | hn <;> rw [hn] at h2 <;> exact absurd h2 (by decide)
  · rcases name_cases_boyne s with hc | hc <;> have h2 := mem_names_battleOfTheBoyne h <;>
      rw [hc] at h2 <;> rw [show ((d, n) : Nat × String).2 = n from rfl] at h2 <;>
      rcases hn with hn | hn <;> rw [hn] at h2 <;> exact absurd h2 (by decide)
  · rcases name_cases_summer s with hc | hc <;> have h2 := mem_names_summerBankHoliday h <;>
      rw [hc] at h2 <;> rw [show ((d, n) : Nat × String).2 = n from rfl] at h2 <;>
      rcases hn with hn | hn <;> rw [hn] at h2 <;> exact absurd h2 (by decide)
  · rcases name_cases_stAndrew s with hc | hc <;> have h2 := mem_names_stAndrewsDay h <;>
      rw [hc] at h2 <;> rw [show ((d, n) : Nat × String).2 = n from rfl] at h2 <;>
      rcases hn with hn | hn <;> rw [hn] at h2 <;> exact absurd h2 (by decide)
  · rcases mem_names_christmasDay h with h2 | h2 <;>
      rw [show ((d, n) : Nat × String).2 = n from rfl] at h2 <;>
      rcases hn with hn | hn <;> rw [hn] at h2 <;> exact absurd h2 (by decide)
  · have h2 := mem_names_goodFriday h
    rw [show ((d, n) : Nat × String).2 = n from rfl] at h2
    rcases hn with hn | hn <;> rw [hn] at h2 <;> exact absurd h2 (by decide)
  · rcases name_cases_easterMonday s with hc | hc <;> have h2 := mem_names_easterMonday h <;>
      rw [hc] at h2 <;> rw [show ((d, n) : Nat × String).2 = n from rfl] at h2 <;>
      rcases hn with hn | hn <;> rw [hn] at h2 <;> exact absurd h2 (by decide)
  · have h2 := mem_names_mayDay h
    rw [show ((d, n) : Nat × String).2 = n from rfl] at h2
    rcases hn with hn | hn <;> rw [hn] at h2 <;> exact absurd h2 (by decide)
  · have h2 := mem_names_springBankHoliday h
    rw [show ((d, n) : Nat × String).2 = n from rfl] at h2
    rcases hn with hn | hn <;> rw [hn] at h2 <;> exact absurd h2 (by decide)
  · rcases name_cases_lateSummer s with hc | hc <;> have h2 := mem_names_lateSummerBankHoliday h <;>
      rw [hc] at h2 <;> rw [show ((d, n) : Nat × String).2 = n from rfl] at h2 <;>
      rcases hn with hn | hn <;> rw [hn] at h2 <;> exact absurd h2 (by decide)
  · rcases mem_names_boxingDay h with h2 | h2 <;>
      rw [show ((d, n) : Nat × String).2 = n from rfl] at h2 <;>
      rcases hn with hn | hn <;> rw [hn] at h2 <;> exact absurd h2 (by decide)
  · have h2 := mem_names_specialHolidays h
    rw [show ((d, n) : Nat × String).2 = n from rfl] at h2
    rcases hn with hn | hn <;> rw [hn] at h2 <;> exact absurd h2 (by decide)

/-- C10: for every subdivision and observed setting, the result map has a
"New Year's Day" entry exactly when the year is at least 1974, and no
New Year's Day entry (base or observed) exists for earlier years. -/
theorem C10_new_years_year_gate (y : Nat) (s : String) (obs : Bool) :
    ((toRD y 1 1, "New Year's Day") ∈ populate y s obs ↔ 1974 ≤ y)
    ∧ (∀ d n, (d, n) ∈ populate y s obs →
        n = "New Year's Day" ∨ n = "New Year's Day (Observed)" → 1974 ≤ y) := by
  have habs : ∀ d n, (d, n) ∈ populate y s obs →
      n = "New Year's Day" ∨ n = "New Year's Day (Observed)" → 1974 ≤ y := by
    intro d n hd hn
    have h2 := nyd_name_mem_populate hd hn
    by_contra hy
    unfold newYearsDay at h2
    rw [if_neg hy] at h2
    cases h2
  refine ⟨⟨fun h => habs _ _ h (Or.inl rfl), fun hy => ?_⟩, habs⟩
  unfold populate mergeSpecials
  simp only [List.append_assoc, List.mem_append]
  left
  unfold newYearsDay
  rw [if_pos hy]
  exact List.mem_append_left _ (List.mem_singleton.2 rfl)

theorem C10_new_years_year_gate_witness :
    (toRD 2022 1 1, "New Year's Day") ∈ populate 2022 "Wales" true ∧
      ¬ (toRD 1960 1 1, "New Year's Day") ∈ populate 1960 "Wales" true :=
  ⟨(C10_new_years_year_gate 2022 "Wales" true).1.mpr (by decide),
   fun h => by have := (C10_new_years_year_gate 1960 "Wales" true).1.mp h; omega⟩

/-- The Spring Bank Holiday block survives its own name filter whole. -/
theorem filter_springBankHoliday_self (y : Nat) :
    (springBankHoliday y).filter (isName "Spring Bank Holiday") = springBankHoliday y := by
  unfold springBankHoliday
  split
  · simp [isName, List.filter_cons]
  · split
    · simp [isName, List.filter_cons]
    · split
      · simp [isName, List.filter_cons]
      · rfl

/-- C6: for every subdivision and observed flag, the "Spring Bank Holiday"
entry is on June 4 in 2012 and June 2 in 2022 (per-year overrides), on the
last Monday of May for every other year ≥ 1971 (a Monday within May 25-31),
and absent for every year < 1971. -/
theorem C6_spring_bank_holiday (y : Nat) (s : String) (obs : Bool) :
    ((populate y s obs).filter (isName "Spring Bank Holiday") =
      if y = 2012 then [(toRD y 6 4, "Spring Bank Holiday")]
      else if y = 2022 then [(toRD y 6 2, "Spring Bank Holiday")]
      else if 1971 ≤ y then
        [(prevWeekdayOnOrBefore 0 (toRD y 5 31), "Spring Bank Holiday")]
      else [])
    ∧ weekday (prevWeekdayOnOrBefore 0 (toRD y 5 31)) = 0
    ∧ toRD y 5 25 ≤ prevWeekdayOnOrBefore 0 (toRD y 5 31)
    ∧ prevWeekdayOnOrBefore 0 (toRD y 5 31) ≤ toRD y 5 31 := by
  refine ⟨?_, ?_, ?_, ?_⟩
  · rw [filter_populate]
    have hnyd : (newYearsDay y obs).filter (isName "Spring Bank Holiday") = [] := by
      apply filter_newYearsDay_nil <;> intro d <;> simp only [isName] <;> decide
    have hnyh : (newYearHoliday y s obs).filter (isName "Spring Bank Holiday") = [] := by
      apply filter_newYearHoliday_nil <;> intro d <;> simp only [isName] <;>
        rcases name_cases_nyh s with hc | hc <;> rw [hc] <;> decide
    have hsp : (stPatricksDay y s obs).filter (isName "Spring Bank Holiday") = [] := by
      apply filter_stPatricksDay_nil <;> intro d <;> simp only [isName] <;>
        rcases name_cases_stPatrick s with hc | hc <;> rw [hc] <;> decide
    have hbb : (battleOfTheBoyne y s).filter (isName "Spring Bank Holiday") = [] := by
      apply filter_battleOfTheBoyne_nil <;> intro d <;> simp only [isName] <;>
        rcases name_cases_boyne s with hc | hc <;> rw [hc] <;> decide
    have hsb : (summerBankHoliday y s).filter (isName "Spring Bank Holiday") = [] := by
      apply filter_summerBankHoliday_nil <;> intro d <;> simp only [isName] <;>
        rcases name_cases_summer s with hc | hc <;> rw [hc] <;> decide
    have hsa : (stAndrewsDay y s).filter (isName "Spring Bank Holiday") = [] := by
      apply filter_stAndrewsDay_nil <;> intro d <;> simp only [isName] <;>
        rcases name_cases_stAndrew s with hc | hc <;> rw [hc] <;> decide
    have hcd : (christmasDay y obs).filter (isName "Spring Bank Holiday") = [] := by
      apply filter_christmasDay_nil <;> intro d <;> simp only [isName] <;> decide
    have hgf : (goodFriday y).filter (isName "Spring Bank Holiday") = [] := by
      apply filter_goodFriday_nil <;> intro d <;> simp only [isName] <;> decide
    have hem : (easterMonday y s).filter (isName "Spring Bank Holiday") = [] := by
      apply filter_easterMonday_nil <;> intro d <;> simp only [isName] <;>
        rcases name_cases_easterMonday s with hc | hc <;> rw [hc] <;> decide
    have hmd : (mayDay y).filter (isName "Spring Bank Holiday") = [] := by
      apply filter_mayDay_nil <;> intro d <;> simp only [isName] <;> decide
    have hls : (lateSummerBankHoliday y s).filter (isName "Spring Bank Holiday") = [] := by
      apply filter_lateSummerBankHoliday_nil <;> intro d <;> simp only [isName] <;>
        rcases name_cases_lateSummer s with hc | hc <;> rw [hc] <;> decide
    have hbd : (boxingDay y obs).filter (isName "Spring Bank Holiday") = [] := by
      apply filter_boxingDay_nil <;> intro d <;> simp only [isName] <;> decide
    have hsh : (specialHolidays y).filter (isName "Spring Bank Holiday") = [] := by
      apply filter_specialHolidays_nil
      intro n hn d; simp only [isName]
      fin_cases hn <;> decide
    rw [hnyd, hnyh, hsp, hbb, hsb, hsa, hcd, hgf, hem, hmd, hls, hbd, hsh]
    simp only [List.append_nil, List.nil_append]
    rw [filter_springBankHoliday_self]
    unfold springBankHoliday
    rfl
  · exact weekday_prevWeekdayOnOrBefore 0 (toRD y 5 31) (by decide)
      (le_trans (by decide) (le_toRD y 5 31))
  · unfold prevWeekdayOnOrBefore weekday toRD; omega
  · exact (prevWeekdayOnOrBefore_bounds 0 (toRD y 5 31)).1

/-- The Summer Bank Holiday block survives its own name filter whole. -/
theorem filter_summerBankHoliday_self (y : Nat) (s : String) (hs : s = "UK" ∨ s = "Scotland") :
    (summerBankHoliday y s).filter (isName (summerName s)) =
      [(nextWeekdayOnOrAfter 0 (toRD y 8 1), summerName s)] := by
  unfold summerBankHoliday
  rw [if_pos hs]
  simp [isName, List.filter_cons]

/-- C8: for every year, with subdivision "UK" or "Scotland" and any
observed flag, the Summer Bank Holiday entry is the first Monday of August
(a Monday, within August 1-7); in particular when August 1 is itself a
Monday the entry is on August 1, not August 8. -/
theorem C8_summer_bank_holiday (y : Nat) (s : String) (obs : Bool)
    (hs : s = "UK" ∨ s = "Scotland") :
    (populate y s obs).filter (isName (summerName s)) =
      [(nextWeekdayOnOrAfter 0 (toRD y 8 1), summerName s)]
    ∧ weekday (nextWeekdayOnOrAfter 0 (toRD y 8 1)) = 0
    ∧ toRD y 8 1 ≤ nextWeekdayOnOrAfter 0 (toRD y 8 1)
    ∧ nextWeekdayOnOrAfter 0 (toRD y 8 1) < toRD y 8 1 + 7
    ∧ (weekday (toRD y 8 1) = 0 → nextWeekdayOnOrAfter 0 (toRD y 8 1) = toRD y 8 1) := by
  refine ⟨?_, weekday_nextWeekdayOnOrAfter 0 (toRD y 8 1) (by decide),
    (nextWeekdayOnOrAfter_bounds 0 (toRD y 8 1)).1,
    (nextWeekdayOnOrAfter_bounds 0 (toRD y 8 1)).2,
    fun h => nextWeekdayOnOrAfter_eq_self 0 (toRD y 8 1) h⟩
  rw [filter_populate]
  have hnyd : (newYearsDay y obs).filter (isName (summerName s)) = [] := by
    apply filter_newYearsDay_nil <;> intro d <;> simp only [isName] <;>
      rcases name_cases_summer s with ht | ht <;> rw [ht] <;> decide
  have hnyh : (newYearHoliday y s obs).filter (isName (summerName s)) = [] := by
    apply filter_newYearHoliday_nil <;> intro d <;> simp only [isName] <;>
      rcases name_cases_summer s with ht | ht <;> rcases name_cases_nyh s with hc | hc <;>
      rw [ht, hc] <;> decide
  have hsp : (stPatricksDay y s obs).filter (isName (summerName s)) = [] := by
    apply filter_stPatricksDay_nil <;> intro d <;> simp only [isName] <;>
      rcases name_cases_summer s with ht | ht <;> rcases name_cases_stPatrick s with hc | hc <;>
      rw [ht, hc] <;> decide
  have hbb : (battleOfTheBoyne y s).filter (isName (summerName s)) = [] := by
    apply filter_battleOfTheBoyne_nil <;> intro d <;> simp only [isName] <;>
      rcases name_cases_summer s with ht | ht <;> rcases name_cases_boyne s with hc | hc <;>
      rw [ht, hc] <;> decide
  have hsa : (stAndrewsDay y s).filter (isName (summerName s)) = [] := by
    apply filter_stAndrewsDay_nil <;> intro d <;> simp only [isName] <;>
      rcases name_cases_summer s with ht | ht <;> rcases name_cases_stAndrew s with hc | hc <;>
      rw [ht, hc] <;> decide
  have hcd : (christmasDay y obs).filter (isName (summerName s)) = [] := by
    apply filter_christmasDay_nil <;> intro d <;> simp only [isName] <;>
      rcases name_cases_summer s with ht | ht <;> rw [ht] <;> decide
  have hgf : (goodFriday y).filter (isName (summerName s)) = [] := by
    apply filter_goodFriday_nil <;> intro d <;> simp only [isName] <;>
      rcases name_cases_summer s with ht | ht <;> rw [ht] <;> decide
  have hem : (easterMonday y s).filter (isName (summerName s)) = [] := by
    apply filter_easterMonday_nil <;> intro d <;> simp only [isName] <;>
      rcases name_cases_summer s with ht | ht <;> rcases name_cases_easterMonday s with hc | hc <;>
      rw [ht, hc] <;> decide
  have hmd : (mayDay y).filter (isName (summerName s)) = [] := by
    apply filter_mayDay_nil <;> intro d <;> simp only [isName] <;>
      rcases name_cases_summer s with ht | ht <;> rw [ht] <;> decide
  have hsbh : (springBankHoliday y).filter (isName (summerName s)) = [] := by
    apply filter_springBankHoliday_nil <;> intro d <;> simp only [isName] <;>
      rcases name_cases_summer s with ht | ht <;> rw [ht] <;> decide
  have hls : (lateSummerBankHoliday y s).filter (isName (summerName s)) = [] := by
    apply filter_lateSummerBankHoliday_nil <;> intro d <;> simp only [isName] <;>
      rcases name_cases_summer s with ht | ht <;> rcases name_cases_lateSummer s with hc | hc <;>
      rw [ht, hc] <;> decide
  have hbd : (boxingDay y obs).filter (isName (summerName s)) = [] := by
    apply filter_boxingDay_nil <;> intro d <;> simp only [isName] <;>
      rcases name_cases_summer s with ht | ht <;> rw [ht] <;> decide
  have hsh : (specialHolidays y).filter (isName (summerName s)) = [] := by
    apply filter_specialHolidays_nil
    intro n hn d; simp only [isName]
    rcases name_cases_summer s with ht | ht <;> rw [ht] <;> fin_cases hn <;> decide
  rw [hnyd, hnyh, hsp, hbb, hsa, hcd, hgf, hem, hmd, hsbh, hls, hbd, hsh]
  simp only [List.append_nil, List.nil_append]
  exact filter_summerBankHoliday_self y s hs

theorem C8_summer_bank_holiday_witness :
    (populate 2022 "UK" true).filter (isName (summerName "UK")) =
      [(toRD 2022 8 1, summerName "UK")]
    ∧ weekday (toRD 2022 8 1) = 0 := by
  have h := (C8_summer_bank_holiday 2022 "UK" true (Or.inl rfl)).1
  rw [h]
  constructor
  · decide
  · decide

/-- The Good Friday line survives its own name filter whole. -/
theorem filter_goodFriday_self (y : Nat) :
    (goodFriday y).filter (isName "Good Friday") = goodFriday y := by
  unfold goodFriday
  simp [isName, List.filter_cons]

/-- The Easter Monday block survives its own name filter whole. -/
theorem filter_easterMonday_self (y : Nat) (s : String) :
    (easterMonday y s).filter (isName (easterMondayName s)) = easterMonday y s := by
  unfold easterMonday
  split
  · simp [isName, List.filter_cons]
  · rfl

/-- C9: for every year, subdivision and observed flag, the "Good Friday"
entry is the last Friday on or before Easter Sunday, the "Easter Monday"
entry (first Monday on or after Easter) exists if and only if the
subdivision is not "Scotland", and since the computed Easter date is a
Sunday these sit exactly 2 days before and 1 day after Easter. -/
theorem C9_easter_rules (y : Nat) (s : String) (obs : Bool) :
    (populate y s obs).filter (isName "Good Friday") =
      [(prevWeekdayOnOrBefore 4 (easterRD y), "Good Friday")]
    ∧ (populate y s obs).filter (isName (easterMondayName s)) =
        (if s = "Scotland" then []
         else [(nextWeekdayOnOrAfter 0 (easterRD y), easterMondayName s)])
    ∧ (weekday (easterRD y) = 6 →
        prevWeekdayOnOrBefore 4 (easterRD y) = easterRD y - 2
        ∧ nextWeekdayOnOrAfter 0 (easterRD y) = easterRD y + 1) := by
  refine ⟨?_, ?_, fun h6 => ⟨?_, ?_⟩⟩
  · rw [filter_populate]
    have hnyd : (newYearsDay y obs).filter (isName "Good Friday") = [] := by
      apply filter_newYearsDay_nil <;> intro d <;> simp only [isName] <;> decide
    have hnyh : (newYearHoliday y s obs).filter (isName "Good Friday") = [] := by
      apply filter_newYearHoliday_nil <;> intro d <;> simp only [isName] <;>
        rcases name_cases_nyh s with hc | hc <;> rw [hc] <;> decide
    have hsp : (stPatricksDay y s obs).filter (isName "Good Friday") = [] := by
      apply filter_stPatricksDay_nil <;> intro d <;> simp only [isName] <;>
        rcases name_cases_stPatrick s with hc | hc <;> rw [hc] <;> decide
    have hbb : (battleOfTheBoyne y s).filter (isName "Good Friday") = [] := by
      apply filter_battleOfTheBoyne_nil <;> intro d <;> simp only [isName] <;>
        rcases name_cases_boyne s with hc | hc <;> rw [hc] <;> decide
    have hsb : (summerBankHoliday y s).filter (isName "Good Friday") = [] := by
      apply filter_summerBankHoliday_nil <;> intro d <;> simp only [isName] <;>
        rcases name_cases_summer s with hc | hc <;> rw [hc] <;> decide
    have hsa : (stAndrewsDay y s).filter (isName "Good Friday") = [] := by
      apply filter_stAndrewsDay_nil <;> intro d <;> simp only [isName] <;>
        rcases name_cases_stAndrew s with hc | hc <;> rw [hc] <;> decide
    have hcd : (christmasDay y obs).filter (isName "Good Friday") = [] := by
      apply filter_christmasDay_nil <;> intro d <;> simp only [isName] <;> decide
    have hem : (easterMonday y s).filter (isName "Good Friday") = [] := by
      apply filter_easterMonday_nil <;> intro d <;> simp only [isName] <;>
        rcases name_cases_easterMonday s with hc | hc <;> rw [hc] <;> decide
    have hmd : (mayDay y).filter (isName "Good Friday") = [] := by
      apply filter_mayDay_nil <;> intro d <;> simp only [isName] <;> decide
    have hsbh : (springBankHoliday y).filter (isName "Good Friday") = [] := by
      apply filter_springBankHoliday_nil <;> intro d <;> simp only [isName] <;> decide
    have hls : (lateSummerBankHoliday y s).filter (isName "Good Friday") = [] := by
      apply filter_lateSummerBankHoliday_nil <;> intro d <;> simp only [isName] <;>
        rcases name_cases_lateSummer s with hc | hc <;> rw [hc] <;> decide
    have hbd : (boxingDay y obs).filter (isName "Good Friday") = [] := by
      apply filter_boxingDay_nil <;> intro d <;> simp only [isName] <;> decide
    have hsh : (specialHolidays y).filter (isName "Good Friday") = [] := by
      apply filter_specialHolidays_nil
      intro n hn d; simp only [isName]
      fin_cases hn <;> decide
    rw [hnyd, hnyh, hsp, hbb, hsb, hsa, hcd, hem, hmd, hsbh, hls, hbd, hsh]
    simp only [List.append_nil, List.nil_append]
    rw [filter_goodFriday_self]
    unfold goodFriday
    rfl
  · rw [filter_populate]
    have hnyd : (newYearsDay y obs).filter (isName (easterMondayName s)) = [] := by
      apply filter_newYearsDay_nil <;> intro d <;> simp only [isName] <;>
        rcases name_cases_easterMonday s with ht | ht <;> rw [ht] <;> decide
    have hnyh : (newYearHoliday y s obs).filter (isName (easterMondayName s)) = [] := by
      apply filter_newYearHoliday_nil <;> intro d <;> simp only [isName] <;>
        rcases name_cases_easterMonday s with ht | ht <;> rcases name_cases_nyh s with hc | hc <;>
        rw [ht, hc] <;> decide
    have hsp : (stPatricksDay y s obs).filter (isName (easterMondayName s)) = [] := by
      apply filter_stPatricksDay_nil <;> intro d <;> simp only [isName] <;>
        rcases name_cases_easterMonday s with ht | ht <;>
        rcases name_cases_stPatrick s with hc | hc <;> rw [ht, hc] <;> decide
    have hbb : (battleOfTheBoyne y s).filter (isName (easterMondayName s)) = [] := by
      apply filter_battleOfTheBoyne_nil <;> intro d <;> simp only [isName] <;>
        rcases name_cases_easterMonday s with ht | ht <;>
        rcases name_cases_boyne s with hc | hc <;> rw [ht, hc] <;> decide
    have hsb : (summerBankHoliday y s).filter (isName (easterMondayName s)) = [] := by
      apply filter_summerBankHoliday_nil <;> intro d <;> simp only [isName] <;>
        rcases name_cases_easterMonday s with ht | ht <;>
        rcases name_cases_summer s with hc | hc <;> rw [ht, hc] <;> decide
    have hsa : (stAndrewsDay y s).filter (isName (easterMondayName s)) = [] := by
      apply filter_stAndrewsDay_nil <;> intro d <;> simp only [isName] <;>
        rcases name_cases_easterMonday s with ht | ht <;>
        rcases name_cases_stAndrew s with hc | hc <;> rw [ht, hc] <;> decide
    have hcd : (christmasDay y obs).filter (isName (easterMondayName s)) = [] := by
      apply filter_christmasDay_nil <;> intro d <;> simp only [isName] <;>
        rcases name_cases_easterMonday s with ht | ht <;> rw [ht] <;> decide
    have hgf : (goodFriday y).filter (isName (easterMondayName s)) = [] := by
      apply filter_goodFriday_nil <;> intro d <;> simp only [isName] <;>
        rcases name_cases_easterMonday s with ht | ht <;> rw [ht] <;> decide
    have hmd : (mayDay y).filter (isName (easterMondayName s)) = [] := by
      apply filter_mayDay_nil <;> intro d <;> simp only [isName] <;>
        rcases name_cases_easterMonday s with ht | ht <;> rw [ht] <;> decide
    have hsbh : (springBankHoliday y).filter (isName (easterMondayName s)) = [] := by
      apply filter_springBankHoliday_nil <;> intro d <;> simp only [isName] <;>
        rcases name_cases_easterMonday s with ht | ht <;> rw [ht] <;> decide
    have hls : (lateSummerBankHoliday y s).filter (isName (easterMondayName s)) = [] := by
      apply filter_lateSummerBankHoliday_nil <;> intro d <;> simp only [isName] <;>
        rcases name_cases_easterMonday s with ht | ht <;>
        rcases name_cases_lateSummer s with hc | hc <;> rw [ht, hc] <;> decide
    have hbd : (boxingDay y obs).filter (isName (easterMondayName s)) = [] := by
      apply filter_boxingDay_nil <;> intro d <;> simp only [isName] <;>
        rcases name_cases_easterMonday s with ht | ht <;> rw [ht] <;> decide
    have hsh : (specialHolidays y).filter (isName (easterMondayName s)) = [] := by
      apply filter_specialHolidays_nil
      intro n hn d; simp only [isName]
      rcases name_cases_easterMonday s with ht | ht <;> rw [ht] <;> fin_cases hn <;> decide
    rw [hnyd, hnyh, hsp, hbb, hsb, hsa, hcd, hgf, hmd, hsbh, hls, hbd, hsh]
    simp only [List.append_nil, List.nil_append]
    rw [filter_easterMonday_self]
    unfold easterMonday
    by_cases hsc : s = "Scotland"
    · rw [if_neg (fun h => h hsc), if_pos hsc]
    · rw [if_pos hsc, if_neg hsc]
  · unfold prevWeekdayOnOrBefore
    rw [h6]
  · unfold nextWeekdayOnOrAfter
    rw [h6]

set_option maxRecDepth 10000 in
/-- The computed Easter date is a Sunday for every year from 1800 to 2200
(kernel-checked range), so the Sunday hypothesis of the Easter claim holds
throughout the library's era of interest. -/
theorem easter_sunday_1800_2200 (y : Nat) (h1 : 1800 ≤ y) (h2 : y ≤ 2200) :
    weekday (easterRD y) = 6 := by
  have hall : ((List.range 401).all (fun k => weekday (easterRD (1800 + k)) == 6)) = true := by
    decide
  have h3 : y - 1800 < 401 := by omega
  have h5 := List.all_eq_true.1 hall (y - 1800) (List.mem_range.2 h3)
  have h4 : 1800 + (y - 1800) = y := by omega
  rw [h4] at h5
  exact beq_iff_eq.mp h5

theorem C9_easter_rules_witness :
    prevWeekdayOnOrBefore 4 (easterRD 2022) = easterRD 2022 - 2
    ∧ nextWeekdayOnOrAfter 0 (easterRD 2022) = easterRD 2022 + 1 :=
  (C9_easter_rules 2022 "England" true).2.2 (by decide)

/-! Support for the subdivision-union property: blocks vanish for
subdivisions outside their gate, and a block's date list does not depend
on the subdivision whenever the block fires. -/

theorem dates_nil : dates [] = [] := rfl

theorem dates_append (a b : List (Nat × String)) : dates (a ++ b) = dates a ++ dates b :=
  List.map_append _ a b

theorem newYearHoliday_nil_of (y : Nat) (s : String) (obs : Bool)
    (h : ¬(s = "UK" ∨ s = "Scotland")) : newYearHoliday y s obs = [] := by
  unfold newYearHoliday; rw [if_neg h]

theorem stPatricksDay_nil_of (y : Nat) (s : String) (obs : Bool)
    (h : ¬(s = "UK" ∨ s = "Northern Ireland")) : stPatricksDay y s obs = [] := by
  unfold stPatricksDay; rw [if_neg h]

theorem battleOfTheBoyne_nil_of (y : Nat) (s : String)
    (h : ¬(s = "UK" ∨ s = "Northern Ireland")) : battleOfTheBoyne y s = [] := by
  unfold battleOfTheBoyne; rw [if_neg h]

theorem summerBankHoliday_nil_of (y : Nat) (s : String)
    (h : ¬(s = "UK" ∨ s = "Scotland")) : summerBankHoliday y s = [] := by
  unfold summerBankHoliday; rw [if_neg h]

theorem stAndrewsDay_nil_of (y : Nat) (s : String)
    (h : ¬(s = "UK" ∨ s = "Scotland")) : stAndrewsDay y s = [] := by
  unfold stAndrewsDay; rw [if_neg h]

theorem easterMonday_nil_of (y : Nat) (s : String)
    (h : s = "Scotland") : easterMonday y s = [] := by
  unfold easterMonday; rw [if_neg (fun h2 => h2 h)]

theorem lateSummerBankHoliday_nil_of (y : Nat) (s : String)
    (h : s = "Scotland") : lateSummerBankHoliday y s = [] := by
  unfold lateSummerBankHoliday; rw [if_neg (fun h2 => h2.1 h)]

theorem dates_newYearHoliday_eq (y : Nat) (obs : Bool) (s : String)
    (hs : s = "UK" ∨ s = "Scotland") :
    dates (newYearHoliday y s obs) = dates (newYearHoliday y "UK" obs) := by
  unfold newYearHoliday
  rw [if_pos hs, if_pos (Or.inl rfl)]
  unfold dates
  simp only [List.map_append, apply_ite (List.map Prod.fst), List.map_cons, List.map_nil]

theorem dates_stPatricksDay_eq (y : Nat) (obs : Bool) (s : String)
    (hs : s = "UK" ∨ s = "Northern Ireland") :
    dates (stPatricksDay y s obs) = dates (stPatricksDay y "UK" obs) := by
  unfold stPatricksDay
  rw [if_pos hs, if_pos (Or.inl rfl)]
  unfold dates
  simp only [List.map_append, apply_ite (List.map Prod.fst), List.map_cons, List.map_nil]

theorem dates_battleOfTheBoyne_eq (y : Nat) (s : String)
    (hs : s = "UK" ∨ s = "Northern Ireland") :
    dates (battleOfTheBoyne y s) = dates (battleOfTheBoyne y "UK") := by
  unfold battleOfTheBoyne
  rw [if_pos hs, if_pos (by decide)]
  unfold dates
  simp only [List.map_cons, List.map_nil]

theorem dates_summerBankHoliday_eq (y : Nat) (s : String)
    (hs : s = "UK" ∨ s = "Scotland") :
    dates (summerBankHoliday y s) = dates (summerBankHoliday y "UK") := by
  unfold summerBankHoliday
  rw [if_pos hs, if_pos (by decide)]
  unfold dates
  simp only [List.map_cons, List.map_nil]

theorem dates_stAndrewsDay_eq (y : Nat) (s : String)
    (hs : s = "UK" ∨ s = "Scotland") :
    dates (stAndrewsDay y s) = dates (stAndrewsDay y "UK") := by
  unfold stAndrewsDay
  rw [if_pos hs, if_pos (by decide)]
  unfold dates
  simp only [List.map_cons, List.map_nil]

theorem dates_easterMonday_eq (y : Nat) (s : String)
    (hs : s ≠ "Scotland") :
    dates (easterMonday y s) = dates (easterMonday y "UK") := by
  unfold easterMonday
  rw [if_pos hs, if_pos (by decide)]
  unfold dates
  simp only [List.map_cons, List.map_nil]

theorem dates_lateSummerBankHoliday_eq (y : Nat) (s : String)
    (hs : s ≠ "Scotland") :
    dates (lateSummerBankHoliday y s) = dates (lateSummerBankHoliday y "UK") := by
  unfold lateSummerBankHoliday
  by_cases hy : 1971 ≤ y
  · rw [if_pos ⟨hs, hy⟩, if_pos ⟨by decide, hy⟩]
    unfold dates
    simp only [List.map_cons, List.map_nil]
  · rw [if_neg (fun h2 => hy h2.2), if_neg (fun h2 => hy h2.2)]

set_option maxHeartbeats 1000000 in
/-- The date set of the "UK" query is the union of the four regional
queries' date sets. -/
theorem populate_dates_union (y : Nat) (obs : Bool) :
    ∀ d, d ∈ dates (populate y "UK" obs) ↔
      (d ∈ dates (populate y "England" obs) ∨ d ∈ dates (populate y "Northern Ireland" obs)
        ∨ d ∈ dates (populate y "Scotland" obs) ∨ d ∈ dates (populate y "Wales" obs)) := by
  intro d
  unfold populate mergeSpecials countrySpecific
  rw [newYearHoliday_nil_of y "England" obs (by decide),
      newYearHoliday_nil_of y "Northern Ireland" obs (by decide),
      newYearHoliday_nil_of y "Wales" obs (by decide),
      stPatricksDay_nil_of y "England" obs (by decide),
      stPatricksDay_nil_of y "Scotland" obs (by decide),
      stPatricksDay_nil_of y "Wales" obs (by decide),
      battleOfTheBoyne_nil_of y "England" (by decide),
      battleOfTheBoyne_nil_of y "Scotland" (by decide),
      battleOfTheBoyne_nil_of y "Wales" (by decide),
      summerBankHoliday_nil_of y "England" (by decide),
      summerBankHoliday_nil_of y "Northern Ireland" (by decide),
      summerBankHoliday_nil_of y "Wales" (by decide),
      stAndrewsDay_nil_of y "England" (by decide),
      stAndrewsDay_nil_of y "Northern Ireland" (by decide),
      stAndrewsDay_nil_of y "Wales" (by decide),
      easterMonday_nil_of y "Scotland" rfl,
      lateSummerBankHoliday_nil_of y "Scotland" rfl]
  simp only [dates_append, dates_nil, List.append_nil, List.nil_append]
  rw [dates_newYearHoliday_eq y obs "Scotland" (by decide),
      dates_stPatricksDay_eq y obs "Northern Ireland" (by decide),
      dates_battleOfTheBoyne_eq y "Northern Ireland" (by decide),
      dates_summerBankHoliday_eq y "Scotland" (by decide),
      dates_stAndrewsDay_eq y "Scotland" (by decide),
      dates_easterMonday_eq y "England" (by decide),
      dates_easterMonday_eq y "Northern Ireland" (by decide),
      dates_easterMonday_eq y "Wales" (by decide),
      dates_lateSummerBankHoliday_eq y "England" (by decide),
      dates_lateSummerBankHoliday_eq y "Northern Ireland" (by decide),
      dates_lateSummerBankHoliday_eq y "Wales" (by decide)]
  simp only [List.mem_append]
  tauto

set_option maxHeartbeats 1000000 in
/-- Regional (non-"UK") queries never carry a bracketed qualifier. -/
theorem populate_regions_undecorated (y : Nat) (obs : Bool) :
    ∀ s, s = "England" ∨ s = "Northern Ireland" ∨ s = "Scotland" ∨ s = "Wales" →
        ∀ p ∈ populate y s obs, ∀ c ∈ p.2.data, c ≠ '[' := by
  intro s hs p hp c hc hceq
  subst hceq
  rcases hs with rfl | rfl | rfl | rfl <;>
    rcases mem_names_populate hp with
      h | h | h | h | h | h | h | h | h | h | h | h | h | h | h | h | h | h | h <;>
    first
      | (rw [h] at hc; revert hc; decide)
      | (simp only [specialNames, List.mem_cons, List.not_mem_nil, or_false] at h
         rcases h with h | h | h | h | h | h | h | h <;> rw [h] at hc <;>
           revert hc <;> decide)

set_option maxHeartbeats 1000000 in
/-- Each region-restricted rule appears decorated in the "UK" query and
undecorated in its own region's query. -/
theorem populate_decorated_mem (y : Nat) (obs : Bool) :
    (toRD y 1 2, "New Year Holiday [Scotland]") ∈ populate y "UK" obs
    ∧ (toRD y 1 2, "New Year Holiday") ∈ populate y "Scotland" obs
    ∧ (toRD y 3 17, "St. Patrick's Day [Northern Ireland]") ∈ populate y "UK" obs
    ∧ (toRD y 3 17, "St. Patrick's Day") ∈ populate y "Northern Ireland" obs
    ∧ (toRD y 7 12, "Battle of the Boyne [Northern Ireland]") ∈ populate y "UK" obs
    ∧ (toRD y 7 12, "Battle of the Boyne") ∈ populate y "Northern Ireland" obs
    ∧ (nextWeekdayOnOrAfter 0 (toRD y 8 1), "Summer Bank Holiday [Scotland]")
        ∈ populate y "UK" obs
    ∧ (nextWeekdayOnOrAfter 0 (toRD y 8 1), "Summer Bank Holiday")
        ∈ populate y "Scotland" obs
    ∧ (toRD y 11 30, "St. Andrew's Day [Scotland]") ∈ populate y "UK" obs
    ∧ (toRD y 11 30, "St. Andrew's Day") ∈ populate y "Scotland" obs
    ∧ (nextWeekdayOnOrAfter 0 (easterRD y), "Easter Monday [England/Wales/Northern Ireland]")
        ∈ populate y "UK" obs
    ∧ (nextWeekdayOnOrAfter 0 (easterRD y), "Easter Monday") ∈ populate y "England" obs
    ∧ (1971 ≤ y →
        (prevWeekdayOnOrBefore 0 (toRD y 8 31),
          "Late Summer Bank Holiday [England/Wales/Northern Ireland]") ∈ populate y "UK" obs
        ∧ (prevWeekdayOnOrBefore 0 (toRD y 8 31), "Late Summer Bank Holiday")
            ∈ populate y "England" obs) := by
  refine ⟨?_, ?_, ?_, ?_, ?_, ?_, ?_, ?_, ?_, ?_, ?_, ?_, ?_⟩
  · unfold populate mergeSpecials countrySpecific
    simp only [List.append_assoc, List.mem_append]
    refine Or.inr (Or.inl ?_)
    unfold newYearHoliday
    rw [if_pos (Or.inl rfl)]
    exact List.mem_append_left _ (List.mem_singleton.2 rfl)
  · unfold populate mergeSpecials countrySpecific
    simp only [List.append_assoc, List.mem_append]
    refine Or.inr (Or.inl ?_)
    unfold newYearHoliday
    rw [if_pos (Or.inr rfl)]
    exact List.mem_append_left _ (List.mem_singleton.2 rfl)
  · unfold populate mergeSpecials countrySpecific
    simp only [List.append_assoc, List.mem_append]
    refine Or.inr (Or.inr (Or.inl ?_))
    unfold stPatricksDay
    rw [if_pos (Or.inl rfl)]
    exact List.mem_append_left _ (List.mem_singleton.2 rfl)
  · unfold populate mergeSpecials countrySpecific
    simp only [List.append_assoc, List.mem_append]
    refine Or.inr (Or.inr (Or.inl ?_))
    unfold stPatricksDay
    rw [if_pos (Or.inr rfl)]
    exact List.mem_append_left _ (List.mem_singleton.2 rfl)
  · unfold populate mergeSpecials countrySpecific
    simp only [List.append_assoc, List.mem_append]
    refine Or.inr (Or.inr (Or.inr (Or.inl ?_)))
    unfold battleOfTheBoyne
    rw [if_pos (Or.inl rfl)]
    exact List.mem_singleton.2 rfl
  · unfold populate mergeSpecials countrySpecific
    simp only [List.append_assoc, List.mem_append]
    refine Or.inr (Or.inr (Or.inr (Or.inl ?_)))
    unfold battleOfTheBoyne
    rw [if_pos (Or.inr rfl)]
    exact List.mem_singleton.2 rfl
  · unfold populate mergeSpecials countrySpecific
    simp only [List.append_assoc, List.mem_append]
    refine Or.inr (Or.inr (Or.inr (Or.inr (Or.inl ?_))))
    unfold summerBankHoliday
    rw [if_pos (Or.inl rfl)]
    exact List.mem_singleton.2 rfl
  · unfold populate mergeSpecials countrySpecific
    simp only [List.append_assoc, List.mem_append]
    refine Or.inr (Or.inr (Or.inr (Or.inr (Or.inl ?_))))
    unfold summerBankHoliday
    rw [if_pos (Or.inr rfl)]
    exact List.mem_singleton.2 rfl
  · unfold populate mergeSpecials countrySpecific
    simp only [List.append_assoc, List.mem_append]
    refine Or.inr (Or.inr (Or.inr (Or.inr (Or.inr (Or.inl ?_)))))
    unfold stAndrewsDay
    rw [if_pos (Or.inl rfl)]
    exact List.mem_singleton.2 rfl
  · unfold populate mergeSpecials countrySpecific
    simp only [List.append_assoc, List.mem_append]
    refine Or.inr (Or.inr (Or.inr (Or.inr (Or.inr (Or.inl ?_)))))
    unfold stAndrewsDay
    rw [if_pos (Or.inr rfl)]
    exact List.mem_singleton.2 rfl
  · unfold populate mergeSpecials countrySpecific
    simp only [List.append_assoc, List.mem_append]
    refine Or.inr (Or.inr (Or.inr (Or.inr (Or.inr (Or.inr (Or.inr (Or.inr (Or.inl ?_))))))))
    unfold easterMonday
    rw [if_pos (by decide)]
    exact List.mem_singleton.2 rfl
  · unfold populate mergeSpecials countrySpecific
    simp only [List.append_assoc, List.mem_append]
    refine Or.inr (Or.inr (Or.inr (Or.inr (Or.inr (Or.inr (Or.inr (Or.inr (Or.inl ?_))))))))
    unfold easterMonday
    rw [if_pos (by decide)]
    exact List.mem_singleton.2 rfl
  · intro hy
    constructor
    · unfold populate mergeSpecials countrySpecific
      simp only [List.append_assoc, List.mem_append]
      refine Or.inr (Or.inr (Or.inr (Or.inr (Or.inr (Or.inr (Or.inr (Or.inr (Or.inr
        (Or.inr (Or.inr (Or.inl ?_)))))))))))
      unfold lateSummerBankHoliday
      rw [if_pos ⟨by decide, hy⟩]
      exact List.mem_singleton.2 rfl
    · unfold populate mergeSpecials countrySpecific
      simp only [List.append_assoc, List.mem_append]
      refine Or.inr (Or.inr (Or.inr (Or.inr (Or.inr (Or.inr (Or.inr (Or.inr (Or.inr
        (Or.inr (Or.inr (Or.inl ?_)))))))))))
      unfold lateSummerBankHoliday
      rw [if_pos ⟨by decide, hy⟩]
      exact List.mem_singleton.2 rfl

/-- C4: for every year (observed held fixed) the date set of the "UK"
query is the union of the date sets of the four regional queries; holidays
restricted to a strict subset of regions carry a bracketed qualifier only
in the "UK" query, while the single-region queries contain no bracketed
name at all. -/
theorem C4_subdivision_union (y : Nat) (obs : Bool) :
    (∀ d, d ∈ dates (populate y "UK" obs) ↔
      (d ∈ dates (populate y "England" obs) ∨ d ∈ dates (populate y "Northern Ireland" obs)
        ∨ d ∈ dates (populate y "Scotland" obs) ∨ d ∈ dates (populate y "Wales" obs)))
    ∧ (∀ s, s = "England" ∨ s = "Northern Ireland" ∨ s = "Scotland" ∨ s = "Wales" →
        ∀ p ∈ populate y s obs, ∀ c ∈ p.2.data, c ≠ '[')
    ∧ (toRD y 1 2, "New Year Holiday [Scotland]") ∈ populate y "UK" obs
    ∧ (toRD y 1 2, "New Year Holiday") ∈ populate y "Scotland" obs
    ∧ (toRD y 3 17, "St. Patrick's Day [Northern Ireland]") ∈ populate y "UK" obs
    ∧ (toRD y 3 17, "St. Patrick's Day") ∈ populate y "Northern Ireland" obs
    ∧ (toRD y 7 12, "Battle of the Boyne [Northern Ireland]") ∈ populate y "UK" obs
    ∧ (toRD y 7 12, "Battle of the Boyne") ∈ populate y "Northern Ireland" obs
    ∧ (nextWeekdayOnOrAfter 0 (toRD y 8 1), "Summer Bank Holiday [Scotland]")
        ∈ populate y "UK" obs
    ∧ (nextWeekdayOnOrAfter 0 (toRD y 8 1), "Summer Bank Holiday")
        ∈ populate y "Scotland" obs
    ∧ (toRD y 11 30, "St. Andrew's Day [Scotland]") ∈ populate y "UK" obs
    ∧ (toRD y 11 30, "St. Andrew's Day") ∈ populate y "Scotland" obs
    ∧ (nextWeekdayOnOrAfter 0 (easterRD y), "Easter Monday [England/Wales/Northern Ireland]")
        ∈ populate y "UK" obs
    ∧ (nextWeekdayOnOrAfter 0 (easterRD y), "Easter Monday") ∈ populate y "England" obs
    ∧ (1971 ≤ y →
        (prevWeekdayOnOrBefore 0 (toRD y 8 31),
          "Late Summer Bank Holiday [England/Wales/Northern Ireland]") ∈ populate y "UK" obs
        ∧ (prevWeekdayOnOrBefore 0 (toRD y 8 31), "Late Summer Bank Holiday")
            ∈ populate y "England" obs) :=
  ⟨populate_dates_union y obs, populate_regions_undecorated y obs,
    populate_decorated_mem y obs⟩

theorem C4_subdivision_union_witness :
    (prevWeekdayOnOrBefore 0 (toRD 2022 8 31),
      "Late Summer Bank Holiday [England/Wales/Northern Ireland]") ∈ populate 2022 "UK" true
    ∧ (prevWeekdayOnOrBefore 0 (toRD 2022 8 31), "Late Summer Bank Holiday")
        ∈ populate 2022 "England" true :=
  (C4_subdivision_union 2022 true).2.2.2.2.2.2.2.2.2.2.2.2.2.2 (by decide)

/-- C7: for year 2020, subdivision "Scotland", observed true, the result
map has "May Day" on 2020-05-08 (the VE-Day override) and contains no
"Late Summer Bank Holiday" entry (decorated or not). -/
theorem C7_scotland_2020_scenario :
    lookup (populate 2020 "Scotland" true) (toRD 2020 5 8) = some "May Day"
    ∧ ∀ p ∈ populate 2020 "Scotland" true,
        p.2 ≠ "Late Summer Bank Holiday" ∧
        p.2 ≠ "Late Summer Bank Holiday [England/Wales/Northern Ireland]" := by
  decide

end UKHolidays
